import Mathlib

/-!
Shallow embedding of the LinkedIn analytics ingestion pipeline
(`app/ingest.py`, together with the `Post` / upload entities of
`app/models.py`).  Pure Python functions become Lean functions; the
SQLAlchemy session becomes an explicit database state threaded through the
upsert operations; spreadsheet cells become a closed variant type.
-/

/-- Python `date` values as they appear in spreadsheet cells and rows. -/
structure PyDate where
  year : Nat
  month : Nat
  day : Nat
deriving DecidableEq, Repr

/-- A spreadsheet cell as produced by openpyxl: `None`, a number, a string,
or a date value.  Numbers are modelled as rationals. -/
inductive CellValue where
  | empty : CellValue
  | num : ℚ → CellValue
  | text : String → CellValue
  | dateCell : PyDate → CellValue
deriving DecidableEq, Repr

/-- Python truthiness of a cell value (used by guards such as
`if cells[0]` in the parsers). -/
def cellTruthy : CellValue → Bool
  | .empty => false
  | .num q => decide (q ≠ 0)
  | .text s => decide (s ≠ "")
  | .dateCell _ => true

/-- Left-pad a numeral with zeros to the given width. -/
def padZeros (width : Nat) (n : Nat) : String :=
  let s := toString n
  if s.length < width then String.mk (List.replicate (width - s.length) '0') ++ s
  else s

/-- Python `str()` of a cell value.  An integer-valued numeric cell renders
as its digits; the workbooks treated in this development only apply `str()`
to text, date and integer cells, so the non-integer numeric rendering never
matters for any theorem below. -/
def cellStr : CellValue → String
  | .empty => "None"
  | .num q => if q.den = 1 then toString q.num
              else toString q.num ++ "/" ++ toString q.den
  | .text s => s
  | .dateCell d => padZeros 4 d.year ++ "-" ++ padZeros 2 d.month ++ "-" ++ padZeros 2 d.day

/-! ### Python string primitives, modelled over character lists so that
every definition evaluates inside the kernel. -/

/-- Strip leading and trailing whitespace from a character list. -/
def stripWsChars (l : List Char) : List Char :=
  ((l.dropWhile Char.isWhitespace).reverse.dropWhile Char.isWhitespace).reverse

/-- Python `str.strip()`. -/
def pyStrip (s : String) : String := String.mk (stripWsChars s.data)

/-- Python `str.upper()` (ASCII-sufficient for this repository's labels). -/
def pyUpper (s : String) : String := String.mk (s.data.map Char.toUpper)

/-- Python `str.lower()`. -/
def pyLower (s : String) : String := String.mk (s.data.map Char.toLower)

/-- Python `str.startswith`. -/
def strStartsWith (s pre : String) : Bool := pre.data.isPrefixOf s.data

/-- Python `str.endswith`. -/
def strEndsWith (s post : String) : Bool := post.data.isSuffixOf s.data

/-- Split on a separator character (`str.split(sep)`). -/
def splitOnChar (sep : Char) : List Char → List (List Char)
  | [] => [[]]
  | c :: r =>
    let rest := splitOnChar sep r
    if c == sep then [] :: rest
    else
      match rest with
      | [] => [[c]]
      | g :: gs => (c :: g) :: gs

/-! ### Numeric string parsing (models of CPython `float(str)` / `int(str)`) -/

/-- Value of a digit list, most significant first. -/
def digitsToNat (l : List Char) : Nat :=
  l.foldl (fun a c => a * 10 + (c.toNat - 48)) 0

/-- Consume an optional leading sign, returning the sign and the rest. -/
def parseSign : List Char → Int × List Char
  | [] => (1, [])
  | c :: r =>
    if c == '+' then (1, r)
    else if c == '-' then (-1, r)
    else (1, c :: r)

/-- Take a leading run of digits and underscores, enforcing Python's rule
that an underscore may only stand between two digits.  Returns the digits
(with underscores removed) and the remaining characters. -/
def takeDigitGroup (l : List Char) : Option (List Char × List Char) :=
  let seg := l.takeWhile (fun c => c.isDigit || c == '_')
  let rest := l.drop seg.length
  if seg = [] then none
  else if seg.head? = some '_' ∨ seg.getLast? = some '_' then none
  else if (seg.zip (seg.drop 1)).any (fun p => p.1 == '_' && p.2 == '_') then none
  else some (seg.filter (fun c => !(c == '_')), rest)

/-- Mantissa plus optional exponent tail of a Python float literal. -/
def pyFloatExp (sg : Int) (ip fr : Nat) (frLen : Nat) (l : List Char) : Option ℚ :=
  let base : ℚ := (ip : ℚ) + (fr : ℚ) / (10 : ℚ) ^ frLen
  match l with
  | [] => some ((sg : ℚ) * base)
  | c :: r =>
    if c == 'e' || c == 'E' then
      let esg := (parseSign r).1
      let r2 := (parseSign r).2
      match takeDigitGroup r2 with
      | some (ds, []) =>
          some ((sg : ℚ) * base * (10 : ℚ) ^ (esg * (digitsToNat ds : Int)))
      | _ => none
    else none

/-- Model of CPython `float(str)` on finite decimal / scientific literals
(the `inf` / `nan` spellings are not modelled; no input in this repository
produces them).  Returns `none` exactly when Python raises `ValueError`. -/
def pyFloatOfChars (l0 : List Char) : Option ℚ :=
  let l1 := stripWsChars l0
  let sg := (parseSign l1).1
  let l2 := (parseSign l1).2
  let intRes := takeDigitGroup l2
  let ipDigits := match intRes with | some (ds, _) => ds | none => []
  let l3 := match intRes with | some (_, r) => r | none => l2
  match l3 with
  | '.' :: l4 =>
    let frRes := takeDigitGroup l4
    let frDigits := match frRes with | some (ds, _) => ds | none => []
    let l5 := match frRes with | some (_, r) => r | none => l4
    if ipDigits = [] ∧ frDigits = [] then none
    else pyFloatExp sg (digitsToNat ipDigits) (digitsToNat frDigits) frDigits.length l5
  | _ =>
    if ipDigits = [] then none
    else pyFloatExp sg (digitsToNat ipDigits) 0 0 l3

/-- Model of CPython `int(str)`: optional whitespace and sign around a
digit group (underscores between digits allowed). -/
def pyIntOfChars (l0 : List Char) : Option ℤ :=
  let l1 := stripWsChars l0
  let sg := (parseSign l1).1
  let l2 := (parseSign l1).2
  match takeDigitGroup l2 with
  | some (ds, []) => some (sg * (digitsToNat ds : ℤ))
  | _ => none

/-- Python `int(float)`: truncation toward zero. -/
def pyTrunc (q : ℚ) : ℤ := if 0 ≤ q then q.floor else -((-q).floor)

/-- `_safe_int` from ingest.py: `int(float(value))`, with the default
returned when the value is `None` or the conversion fails. -/
def safeInt (value : CellValue) (default : ℤ := 0) : ℤ :=
  match value with
  | .empty => default
  | .num q => pyTrunc q
  | .text s =>
    match pyFloatOfChars s.data with
    | some q => pyTrunc q
    | none => default
  | .dateCell _ => default

/-- `_safe_float` from ingest.py: `float(value)` with a default on failure. -/
def safeFloat (value : CellValue) (default : ℚ := 0) : ℚ :=
  match value with
  | .empty => default
  | .num q => q
  | .text s => (pyFloatOfChars s.data).getD default
  | .dateCell _ => default

/-- `_parse_int_with_commas` from ingest.py:
`int(str(s).replace(",", ""))`, returning 0 on failure. -/
def parseIntWithCommas (s : String) : ℤ :=
  (pyIntOfChars (s.data.filter (fun c => !(c == ',')))).getD 0

/-! ### Date parsing -/

def isLeapYear (y : Nat) : Bool :=
  y % 4 == 0 && (y % 100 != 0 || y % 400 == 0)

def daysInMonth (y m : Nat) : Nat :=
  if m == 2 then (if isLeapYear y then 29 else 28)
  else if m == 4 || m == 6 || m == 9 || m == 11 then 30
  else 31

/-- Build a calendar-valid date, as `datetime.strptime` validates. -/
def mkDate (y m d : Nat) : Option PyDate :=
  if 1 ≤ y ∧ y ≤ 9999 ∧ 1 ≤ m ∧ m ≤ 12 ∧ 1 ≤ d ∧ d ≤ daysInMonth y m then
    some ⟨y, m, d⟩
  else none

/-- An all-digit field of bounded width, as matched by a strptime numeric
directive. -/
def numField (l : List Char) (maxLen : Nat) : Option Nat :=
  if l ≠ [] ∧ l.length ≤ maxLen ∧ l.all Char.isDigit then some (digitsToNat l)
  else none

/-- Field order of the numeric date formats tried by `_parse_date`. -/
inductive DateOrder where
  | mdy : DateOrder
  | ymd : DateOrder
  | dmy : DateOrder
deriving DecidableEq, Repr

/-- One numeric strptime format: three fields joined by a separator. -/
def parseSeparatedDate (sep : Char) (ord : DateOrder) (s : String) : Option PyDate :=
  match splitOnChar sep s.data with
  | [a, b, c] =>
    match ord with
    | .mdy =>
      match numField a 2, numField b 2, numField c 4 with
      | some m, some d, some y => mkDate y m d
      | _, _, _ => none
    | .ymd =>
      match numField a 4, numField b 2, numField c 2 with
      | some y, some m, some d => mkDate y m d
      | _, _, _ => none
    | .dmy =>
      match numField a 2, numField b 2, numField c 4 with
      | some d, some m, some y => mkDate y m d
      | _, _, _ => none
  | _ => none

/-- The string branch of `_parse_date`: the four formats
`%m/%d/%Y`, `%Y-%m-%d`, `%d/%m/%Y`, `%Y/%m/%d` tried in order on the
stripped string. -/
def parseDateStr (s0 : String) : Option PyDate :=
  let s := pyStrip s0
  (parseSeparatedDate '/' .mdy s).orElse fun _ =>
  (parseSeparatedDate '-' .ymd s).orElse fun _ =>
  (parseSeparatedDate '/' .dmy s).orElse fun _ =>
  parseSeparatedDate '/' .ymd s

/-- `_parse_date` from ingest.py. -/
def parseDate : CellValue → Option PyDate
  | .empty => none
  | .dateCell d => some d
  | .text s => parseDateStr s
  | .num _ => none

/-- Month abbreviation for strptime `%b` (case-insensitive). -/
def monthAbbrev (s : String) : Option Nat :=
  match pyLower s with
  | "jan" => some 1
  | "feb" => some 2
  | "mar" => some 3
  | "apr" => some 4
  | "may" => some 5
  | "jun" => some 6
  | "jul" => some 7
  | "aug" => some 8
  | "sep" => some 9
  | "oct" => some 10
  | "nov" => some 11
  | "dec" => some 12
  | _ => none

/-- strptime `"%b %d, %Y"` as used on the per-post `Post Date` value. -/
def parsePostDateStr (s : String) : Option PyDate :=
  match (splitOnChar ' ' s.data).filter (fun t => !(t == [])) with
  | [ms, ds, ys] =>
    if ds.getLast? == some ',' then
      match monthAbbrev (String.mk ms), numField ds.dropLast 2, numField ys 4 with
      | some m, some d, some y => mkDate y m d
      | _, _, _ => none
    else none
  | _ => none

/-- `_parse_post_hour` from ingest.py: strptime `"%I:%M %p"` on the
stripped string, returning the 24-hour hour, or `none` on failure. -/
def parsePostHour (s0 : String) : Option ℤ :=
  let s := pyStrip s0
  match splitOnChar ':' s.data with
  | [hs, rest] =>
    match (splitOnChar ' ' rest).filter (fun t => !(t == [])) with
    | [ms, ap] =>
      match numField hs 2, numField ms 2 with
      | some h, some m =>
        if 1 ≤ h ∧ h ≤ 12 ∧ m ≤ 59 then
          match pyLower (String.mk ap) with
          | "am" => some (if h == 12 then 0 else (h : ℤ))
          | "pm" => some (if h == 12 then 12 else (h : ℤ) + 12)
          | _ => none
        else none
      | _, _ => none
    | _ => none
  | _ => none

/-! ### URN extraction -/

/-- Scan left to right for `marker` immediately followed by at least one
digit; return that maximal digit run.  This is `re.search` on the pattern
`marker(\d+)`. -/
def scanUrn (marker : List Char) : List Char → Option (List Char)
  | [] => none
  | c :: rest =>
    let cur := c :: rest
    if marker.isPrefixOf cur then
      let ds := (cur.drop marker.length).takeWhile Char.isDigit
      if ds = [] then scanUrn marker rest else some ds
    else scanUrn marker rest

/-- `_extract_activity_id`: `re.search(r"urn:li:activity:(\d+)", url)`. -/
def extractActivityId (url : String) : Option String :=
  if url = "" then none
  else (scanUrn "urn:li:activity:".data url.data).map String.mk

/-- Like `scanUrn` for the alternation `urn:li:(?:share|activity):(\d+)`:
at each position the two prefixes are mutually exclusive. -/
def scanUrn2 : List Char → Option (List Char)
  | [] => none
  | c :: rest =>
    let cur := c :: rest
    if ("urn:li:share:".data).isPrefixOf cur then
      let ds := (cur.drop 13).takeWhile Char.isDigit
      if ds = [] then scanUrn2 rest else some ds
    else if ("urn:li:activity:".data).isPrefixOf cur then
      let ds := (cur.drop 16).takeWhile Char.isDigit
      if ds = [] then scanUrn2 rest else some ds
    else scanUrn2 rest

/-- `_extract_urn_from_url`: `re.search(r"urn:li:(?:share|activity):(\d+)", url)`. -/
def extractUrnFromUrl (url : String) : Option String :=
  (scanUrn2 url.data).map String.mk

/-! ### SHA-256 (`hashlib.sha256`, as used by `compute_file_hash`) -/

/-- Reduce modulo 2^32. -/
def w32 (n : Nat) : Nat := n % 4294967296

def rotr32 (x n : Nat) : Nat := w32 ((x >>> n) ||| (x <<< (32 - n)))

def shaCh (x y z : Nat) : Nat := (x &&& y) ^^^ ((x ^^^ 4294967295) &&& z)

def shaMaj (x y z : Nat) : Nat := (x &&& y) ^^^ (x &&& z) ^^^ (y &&& z)

def bigSigma0 (x : Nat) : Nat := rotr32 x 2 ^^^ rotr32 x 13 ^^^ rotr32 x 22

def bigSigma1 (x : Nat) : Nat := rotr32 x 6 ^^^ rotr32 x 11 ^^^ rotr32 x 25

def smallSigma0 (x : Nat) : Nat := rotr32 x 7 ^^^ rotr32 x 18 ^^^ (x >>> 3)

def smallSigma1 (x : Nat) : Nat := rotr32 x 17 ^^^ rotr32 x 19 ^^^ (x >>> 10)

/-- The 64 SHA-256 round constants. -/
def shaK : List Nat :=
  [1116352408, 1899447441, 3049323471, 3921009573, 961987163, 1508970993,
   2453635748, 2870763221, 3624381080, 310598401, 607225278, 1426881987,
   1925078388, 2162078206, 2614888103, 3248222580, 3835390401, 4022224774,
   264347078, 604807628, 770255983, 1249150122, 1555081692, 1996064986,
   2554220882, 2821834349, 2952996808, 3210313671, 3336571891, 3584528711,
   113926993, 338241895, 666307205, 773529912, 1294757372, 1396182291,
   1695183700, 1986661051, 2177026350, 2456956037, 2730485921, 2820302411,
   3259730800, 3345764771, 3516065817, 3600352804, 4094571909, 275423344,
   430227734, 506948616, 659060556, 883997877, 958139571, 1322822218,
   1537002063, 1747873779, 1955562222, 2024104815, 2227730452, 2361852424,
   2428436474, 2756734187, 3204031479, 3329325298]

/-- The initial SHA-256 hash state. -/
def shaH0 : List Nat :=
  [1779033703, 3144134277, 1013904242, 2773480762,
   1359893119, 2600822924, 528734635, 1541459225]

/-- Big-endian bytes of a value, fixed width. -/
def beBytes (k : Nat) (n : Nat) : List Nat :=
  (List.range k).map (fun i => (n >>> (8 * (k - 1 - i))) % 256)

/-- SHA-256 message padding. -/
def shaPad (msg : List Nat) : List Nat :=
  let L := msg.length
  let z := (56 + 64 - ((L + 1) % 64)) % 64
  msg ++ [0x80] ++ List.replicate z 0 ++ beBytes 8 (8 * L)

/-- Split into 64-byte chunks; `fuel` bounds the recursion. -/
def chunksOf64 (fuel : Nat) (l : List Nat) : List (List Nat) :=
  match fuel with
  | 0 => []
  | f + 1 => if l = [] then [] else l.take 64 :: chunksOf64 f (l.drop 64)

/-- Assemble big-endian 32-bit word `i` of a 64-byte block. -/
def beWord (block : List Nat) (i : Nat) : Nat :=
  (block.getD (4 * i) 0) <<< 24 ||| (block.getD (4 * i + 1) 0) <<< 16 |||
  (block.getD (4 * i + 2) 0) <<< 8 ||| block.getD (4 * i + 3) 0

/-- The 64-word message schedule of one block. -/
def shaSchedule (block : List Nat) : Array Nat :=
  let w0 := ((List.range 16).map (beWord block)).toArray
  (List.range 48).foldl
    (fun w t =>
      w.push (w32 (smallSigma1 (w.getD (t + 14) 0) + w.getD (t + 9) 0 +
                   smallSigma0 (w.getD (t + 1) 0) + w.getD t 0)))
    w0

structure ShaState where
  a : Nat
  b : Nat
  c : Nat
  d : Nat
  e : Nat
  f : Nat
  g : Nat
  h : Nat
deriving Repr

/-- One SHA-256 compression round. -/
def shaCompressRound (w : Array Nat) (st : ShaState) (t : Nat) : ShaState :=
  let t1 := w32 (st.h + bigSigma1 st.e + shaCh st.e st.f st.g +
                 shaK.getD t 0 + w.getD t 0)
  let t2 := w32 (bigSigma0 st.a + shaMaj st.a st.b st.c)
  ⟨w32 (t1 + t2), st.a, st.b, st.c, w32 (st.d + t1), st.e, st.f, st.g⟩

/-- Process one 64-byte block. -/
def shaProcessBlock (hs : List Nat) (block : List Nat) : List Nat :=
  let w := shaSchedule block
  let st0 : ShaState :=
    ⟨hs.getD 0 0, hs.getD 1 0, hs.getD 2 0, hs.getD 3 0,
     hs.getD 4 0, hs.getD 5 0, hs.getD 6 0, hs.getD 7 0⟩
  let st := (List.range 64).foldl (shaCompressRound w) st0
  [w32 (hs.getD 0 0 + st.a), w32 (hs.getD 1 0 + st.b),
   w32 (hs.getD 2 0 + st.c), w32 (hs.getD 3 0 + st.d),
   w32 (hs.getD 4 0 + st.e), w32 (hs.getD 5 0 + st.f),
   w32 (hs.getD 6 0 + st.g), w32 (hs.getD 7 0 + st.h)]

/-- SHA-256 digest as eight 32-bit words. -/
def sha256Words (msg : List Nat) : List Nat :=
  let padded := shaPad msg
  (chunksOf64 padded.length padded).foldl shaProcessBlock shaH0

def hexDigit (n : Nat) : Char :=
  if n < 10 then Char.ofNat (48 + n) else Char.ofNat (87 + n)

def word8Hex (x : Nat) : List Char :=
  (List.range 8).map (fun i => hexDigit ((x >>> (28 - 4 * i)) % 16))

/-- `compute_file_hash`: hex-encoded SHA-256 of the file content. -/
def sha256Hex (msg : List Nat) : String :=
  String.mk (((sha256Words msg).map word8Hex).flatten)

set_option maxRecDepth 100000

unseal Rat.mul Rat.inv Rat.add Rat.sub Rat.ofScientific

/-- Sanity check of the SHA-256 model against the standard empty-message
test vector. -/
example :
    sha256Hex [] =
      "e3b0c44298fc1c149afbf4c8996fb92427ae41e4649b934ca495991b7852b855" := by
  decide

/-- Sanity check against the standard "abc" test vector. -/
example :
    sha256Hex [0x61, 0x62, 0x63] =
      "ba7816bf8f01cfea414140de5dae2223b00361a396177a9cb410ff61f20015ad" := by
  decide

/-! ### Data model (app/models.py) -/

/-- The `posts` table.  Metric columns are non-nullable with default 0 in
the schema; the nullable extended metrics also default to 0 and are only
ever written with concrete integers, so all are modelled as `ℤ`. -/
structure Post where
  id : Nat
  linkedin_post_id : Option String
  post_url : Option String
  title : Option String
  post_date : PyDate
  post_type : Option String
  impressions : ℤ
  members_reached : ℤ
  reactions : ℤ
  comments : ℤ
  shares : ℤ
  clicks : ℤ
  engagement_rate : ℚ
  post_hour : Option ℤ
  content : Option String
  status : Option String
  saves : ℤ
  sends : ℤ
  profile_views : ℤ
  followers_gained : ℤ
  reposts : ℤ
deriving DecidableEq, Repr

/-- Python truthiness of an optional string column. -/
def strTruthy : Option String → Bool
  | none => false
  | some s => decide (s ≠ "")

/-- `Post.recalculate_engagement_rate` from models.py. -/
def recalcEngagementRate (p : Post) : Post :=
  if 0 < p.impressions then
    { p with engagement_rate :=
        ((p.reactions + p.comments + p.shares : ℤ) : ℚ) / (p.impressions : ℚ) }
  else { p with engagement_rate := 0 }

/-- The record dictionary handed to `_upsert_post` (defaults model
`record.get(key, 0)` / absent keys). -/
structure PostRecord where
  linkedin_post_id : Option String := none
  post_url : Option String := none
  title : Option String := none
  post_date : PyDate
  post_type : Option String := none
  impressions : ℤ := 0
  members_reached : ℤ := 0
  reactions : ℤ := 0
  comments : ℤ := 0
  shares : ℤ := 0
  clicks : ℤ := 0
  engagement_rate : ℚ := 0
deriving DecidableEq, Repr

/-- The `daily_metrics` table. -/
structure DailyMetric where
  post_id : Option Nat
  metric_date : PyDate
  impressions : ℤ
  members_reached : ℤ
  reactions : ℤ
  comments : ℤ
  shares : ℤ
  clicks : ℤ
deriving DecidableEq, Repr

/-- The record dictionary handed to `_upsert_daily_metric`.  The engagement
sheet parser stores the day's engagements under the key `engagements`,
which `_upsert_daily_metric` never reads; the field is kept to mirror the
dictionary exactly. -/
structure DailyMetricRecord where
  post_id : Option Nat := none
  metric_date : PyDate
  impressions : ℤ := 0
  engagements : ℤ := 0
  members_reached : ℤ := 0
  reactions : ℤ := 0
  comments : ℤ := 0
  shares : ℤ := 0
  clicks : ℤ := 0
deriving DecidableEq, Repr

/-- The `follower_snapshots` table (and the parser's record shape). -/
structure FollowerSnapshot where
  snapshot_date : PyDate
  total_followers : ℤ
  new_followers : ℤ
deriving DecidableEq, Repr

/-- The `demographic_snapshots` table (and the parser's record shape). -/
structure DemographicSnapshot where
  snapshot_date : PyDate
  category : String
  value : String
  percentage : ℚ
deriving DecidableEq, Repr

/-- The `post_demographics` table. -/
structure PostDemographic where
  post_id : Nat
  category : String
  value : String
  percentage : ℚ
deriving DecidableEq, Repr

/-- The `uploads` table. -/
structure Upload where
  filename : String
  file_hash : String
  upload_date : PyDate
  records_imported : Nat
  status : String
deriving DecidableEq, Repr

/-- The database state threaded through the upsert layer.  `nextPostId`
models the autoincrement id source; lists keep insertion order, so
`.first()` on an unordered query is `List.find?`. -/
structure Db where
  posts : List Post := []
  nextPostId : Nat := 1
  dailyMetrics : List DailyMetric := []
  followerSnapshots : List FollowerSnapshot := []
  demographicSnapshots : List DemographicSnapshot := []
  postDemographics : List PostDemographic := []
  uploads : List Upload := []
deriving DecidableEq, Repr

/-! ### Worksheets and sheet parsers -/

/-- A worksheet: rows of cells, row-major. -/
abbrev Worksheet := List (List CellValue)

/-- A workbook: named sheets in workbook order. -/
abbrev Workbook := List (String × List (List CellValue))

/-- Cell access; openpyxl pads missing trailing cells with `None`. -/
def cellAt (row : List CellValue) (i : Nat) : CellValue :=
  row.getD i .empty

/-- `_get_sheet`: case-insensitive, trimmed sheet lookup. -/
def getSheet (wb : Workbook) (name : String) : Option (List (List CellValue)) :=
  (wb.find? (fun s => pyUpper (pyStrip s.1) == pyUpper name)).map (·.2)

/-- Update the first element satisfying `q` (the list analogue of mutating
the object returned by `.first()`). -/
def updateFirst (q : α → Bool) (f : α → α) : List α → List α
  | [] => []
  | x :: xs => if q x then f x :: xs else x :: updateFirst q f xs

/-- Update the first element satisfying `q` and also return the updated
element, `none` when nothing matched. -/
def updateFirstAndGet (q : α → Bool) (f : α → α) : List α → List α × Option α
  | [] => ([], none)
  | x :: xs =>
    if q x then (f x :: xs, some (f x))
    else
      let r := updateFirstAndGet q f xs
      (x :: r.1, r.2)

/-- Result of `_parse_discovery_sheet`: the summary map. -/
structure DiscoverySummary where
  impressions : Option ℤ := none
  members_reached : Option ℤ := none
deriving DecidableEq, Repr

/-- `_parse_discovery_sheet`. -/
def parseDiscoverySheet (ws : List (List CellValue)) : DiscoverySummary :=
  ws.foldl
    (fun acc row =>
      let label := cellAt row 0
      let value := if row.length > 1 then cellAt row 1 else .empty
      if cellTruthy label ∧ value ≠ .empty then
        let key := pyUpper (pyStrip (cellStr label))
        if key = "IMPRESSIONS" then { acc with impressions := some (safeInt value) }
        else if key = "MEMBERS REACHED" then
          { acc with members_reached := some (safeInt value) }
        else acc
      else acc)
    {}

/-- `_parse_engagement_sheet`. -/
def parseEngagementSheet (ws : List (List CellValue)) : List DailyMetricRecord :=
  (ws.foldl
    (fun (st : Bool × List DailyMetricRecord) row =>
      let c0 := cellAt row 0
      if row = [] ∨ c0 = .empty then st
      else if pyUpper (pyStrip (cellStr c0)) = "DATE" then (true, st.2)
      else if !st.1 then st
      else
        match parseDate c0 with
        | none => st
        | some d =>
          (st.1, st.2 ++ [{ post_id := none, metric_date := d,
                            impressions := if row.length > 1 then safeInt (cellAt row 1) else 0,
                            engagements := if row.length > 2 then safeInt (cellAt row 2) else 0 }]))
    (false, [])).2

/-- Entry of the in-memory merge map of `_parse_top_posts_sheet`, keyed by
the extracted activity id (Python dicts keep insertion order). -/
structure TopPostEntry where
  linkedin_post_id : String
  post_url : String
  post_date : PyDate
  impressions : ℤ
  engagements : ℤ
deriving DecidableEq, Repr

/-- Left-table (engagement) update of the merge map. -/
def topPostsUpdateLeft (recs : List TopPostEntry) (aid url : String) (d : PyDate)
    (eng : ℤ) : List TopPostEntry :=
  if recs.any (fun r => r.linkedin_post_id == aid) then
    updateFirst (fun r => r.linkedin_post_id == aid)
      (fun r => { r with engagements := eng }) recs
  else
    recs ++ [{ linkedin_post_id := aid, post_url := url, post_date := d,
               impressions := 0, engagements := eng }]

/-- Right-table (impressions) update of the merge map. -/
def topPostsUpdateRight (recs : List TopPostEntry) (aid url : String) (d : PyDate)
    (imp : ℤ) : List TopPostEntry :=
  if recs.any (fun r => r.linkedin_post_id == aid) then
    updateFirst (fun r => r.linkedin_post_id == aid)
      (fun r => { r with impressions := imp }) recs
  else
    recs ++ [{ linkedin_post_id := aid, post_url := url, post_date := d,
               impressions := imp, engagements := 0 }]

/-- The left-table (cols A-C, engagements) inspection of one data row. -/
def topPostsLeftScan (recs : List TopPostEntry) (row : List CellValue) :
    List TopPostEntry :=
  let urlLeft := if cellTruthy (cellAt row 0) then pyStrip (cellStr (cellAt row 0)) else ""
  if urlLeft ≠ "" ∧ strStartsWith urlLeft "http" then
    match extractActivityId urlLeft,
          (if row.length > 1 then parseDate (cellAt row 1) else none) with
    | some aid, some pd =>
      topPostsUpdateLeft recs aid urlLeft pd
        (if row.length > 2 then safeInt (cellAt row 2) else 0)
    | _, _ => recs
  else recs

/-- The right-table (cols E-G, impressions) inspection of one data row. -/
def topPostsRightScan (recs : List TopPostEntry) (row : List CellValue) :
    List TopPostEntry :=
  if row.length > 4 then
    let urlRight := if cellTruthy (cellAt row 4) then pyStrip (cellStr (cellAt row 4)) else ""
    if urlRight ≠ "" ∧ strStartsWith urlRight "http" then
      match extractActivityId urlRight,
            (if row.length > 5 then parseDate (cellAt row 5) else none) with
      | some aid, some pd =>
        topPostsUpdateRight recs aid urlRight pd
          (if row.length > 6 then safeInt (cellAt row 6) else 0)
      | _, _ => recs
    else recs
  else recs

/-- One row of the TOP POSTS scan: header search, then the independent
left (cols A-C) and right (cols E-G) table inspections. -/
def parseTopPostsRow (st : Bool × List TopPostEntry) (row : List CellValue) :
    Bool × List TopPostEntry :=
  if !st.1 then
    if cellTruthy (cellAt row 0) ∧ pyUpper (pyStrip (cellStr (cellAt row 0))) = "POST URL"
    then (true, st.2) else st
  else (true, topPostsRightScan (topPostsLeftScan st.2 row) row)

/-- `_parse_top_posts_sheet`: scan all rows, then convert the merge map's
values to post records (the final dictionaries carry the engagement count
in the `reactions` key and no `post_url` key). -/
def parseTopPostsSheet (ws : List (List CellValue)) : List PostRecord :=
  ((ws.foldl parseTopPostsRow ((false, []) : Bool × List TopPostEntry)).2).map
    (fun (r : TopPostEntry) =>
      { post_date := r.post_date
        title := none
        linkedin_post_id := some r.linkedin_post_id
        impressions := r.impressions
        reactions := r.engagements
        comments := 0
        shares := 0
        clicks := 0
        members_reached := 0
        engagement_rate :=
          if 0 < r.impressions then (r.engagements : ℚ) / (r.impressions : ℚ) else 0
        post_type := none })

/-- `_parse_followers_sheet`; also returns the warnings it appends. -/
def parseFollowersSheet (ws : List (List CellValue)) :
    List FollowerSnapshot × List String :=
  let st :=
    ws.foldl
      (fun (st : ℤ × Bool × List FollowerSnapshot) row =>
        let c0 := cellAt row 0
        if row = [] ∨ c0 = .empty then st
        else
          let label := pyStrip (cellStr c0)
          if strStartsWith (pyUpper label) "TOTAL FOLLOWERS" then
            ((if row.length > 1 then safeInt (cellAt row 1) else 0), st.2)
          else if pyUpper label = "DATE" then (st.1, true, st.2.2)
          else if !st.2.1 then st
          else
            match parseDate c0 with
            | none => st
            | some d =>
              (st.1, st.2.1,
               st.2.2 ++ [{ snapshot_date := d, total_followers := st.1,
                            new_followers :=
                              if row.length > 1 then safeInt (cellAt row 1) else 0 }]))
      (0, false, [])
  (st.2.2,
   if st.2.2 = [] ∧ 0 < st.1 then ["FOLLOWERS sheet: no daily data rows found."] else [])

/-- One row of the DEMOGRAPHICS scan; `today` is the import-day
`date.today()` captured at the start of `_parse_demographics_sheet`. -/
def parseDemographicsRow (today : PyDate) (st : Bool × List DemographicSnapshot)
    (row : List CellValue) : Bool × List DemographicSnapshot :=
  let c0 := cellAt row 0
  if row = [] ∨ c0 = .empty then st
  else
    let label := pyStrip (cellStr c0)
    if pyUpper label = "TOP DEMOGRAPHICS" ∨ pyUpper label = "CATEGORY" then
      (true, st.2)
    else if !st.1 then st
    else
      let value :=
        if row.length > 1 ∧ cellTruthy (cellAt row 1)
        then pyStrip (cellStr (cellAt row 1)) else ""
      let pct := if row.length > 2 then safeFloat (cellAt row 2) else 0
      if value = "" then st
      else
        (st.1, st.2 ++ [{ snapshot_date := today, category := pyLower label,
                          value := value, percentage := pct }])

/-- `_parse_demographics_sheet`; also returns the warnings it appends. -/
def parseDemographicsSheet (today : PyDate) (ws : List (List CellValue)) :
    List DemographicSnapshot × List String :=
  let recs := (ws.foldl (parseDemographicsRow today) (false, [])).2
  (recs,
   if recs = [] then ["DEMOGRAPHICS sheet: could not parse any demographic records."]
   else [])

/-! ### Per-post sheet parsers and format detection -/

/-- `_detect_xlsx_format`, over the workbook's sheet-name list. -/
def detectXlsxFormat (sheetnames : List String) : String :=
  let sns := sheetnames.map (fun s => pyLower (pyStrip s))
  if sns.contains "performance" ∧ sns.contains "top demographics" then "per_post"
  else if sns.contains "discovery" ∧ sns.contains "engagement" then "aggregate"
  else "unknown"

/-- Python dict insertion (later assignments to the same key overwrite in
place, preserving insertion order). -/
def dictInsert (k v : String) : List (String × String) → List (String × String)
  | [] => [(k, v)]
  | (k0, v0) :: rest =>
    if k0 == k then (k0, v) :: rest else (k0, v0) :: dictInsert k v rest

/-- Python `dict.get(key, default)`. -/
def dictGet (m : List (String × String)) (k default : String) : String :=
  match m.find? (fun p => p.1 == k) with
  | some p => p.2
  | none => default

/-- `_parse_per_post_performance`: label/value pairs from the first two
columns. -/
def parsePerPostPerformance (ws : List (List CellValue)) : List (String × String) :=
  ws.foldl
    (fun m row =>
      let c0 := cellAt row 0
      let c1 := cellAt row 1
      if cellTruthy c0 ∧ c1 ≠ .empty then
        dictInsert (pyStrip (cellStr c0)) (pyStrip (cellStr c1)) m
      else m)
    []

/-- Strip trailing `%` characters (`str.rstrip("%")`). -/
def rstripPercent (l : List Char) : List Char :=
  (l.reverse.dropWhile (· == '%')).reverse

/-- The percentage branch of `float(str(raw).strip().rstrip("%")) / 100`
with 0.0 on failure. -/
def perPostPctFallback (s : String) : ℚ :=
  match pyFloatOfChars (rstripPercent (stripWsChars s.data)) with
  | some x => x / 100
  | none => 0

/-- The percentage coercion inside `_parse_per_post_demographics`. -/
def perPostPercentage (pct : CellValue) : ℚ :=
  match pct with
  | .num q => q
  | .text s =>
    if s.data.contains '<' then 1 / 200
    else perPostPctFallback s
  | .empty => perPostPctFallback "None"
  | .dateCell d => perPostPctFallback (cellStr (.dateCell d))

/-- A parsed row of the TOP DEMOGRAPHICS sheet. -/
structure PerPostDemoRow where
  category : String
  value : String
  percentage : ℚ
deriving DecidableEq, Repr

/-- `_parse_per_post_demographics`: tabular rows from row 2 on. -/
def parsePerPostDemographics (ws : List (List CellValue)) : List PerPostDemoRow :=
  (ws.drop 1).foldl
    (fun rows row =>
      let c0 := cellAt row 0
      let c1 := cellAt row 1
      if !cellTruthy c0 ∨ c1 = .empty then rows
      else
        rows ++ [{ category := String.mk ((pyLower (pyStrip (cellStr c0))).data.map
                       (fun c => if c == ' ' then '_' else c)),
                   value := pyStrip (cellStr c1),
                   percentage := perPostPercentage (cellAt row 2) }])
    []

/-! ### Reconciliation / upsert engine (`_upsert_*`, `load_to_db`) -/

/-- Tier-1 predicate of `_upsert_post`: exact match on the external post
identifier carried by the record. -/
def postIdPred (r : PostRecord) (p : Post) : Bool :=
  p.linkedin_post_id == r.linkedin_post_id

/-- Tier-2 predicate: exact (post date, title) match. -/
def dateTitlePred (r : PostRecord) (p : Post) : Bool :=
  p.post_date == r.post_date && p.title == r.title

/-- Tier-3 predicate: post-date match against a stored post with no title. -/
def dateNoTitlePred (r : PostRecord) (p : Post) : Bool :=
  p.post_date == r.post_date && p.title == none

/-- The `_upsert_post` match search: the three fallback queries in source
order, each guarded exactly as in the code (`record.get(...)` truthiness).
Returns the predicate whose `.first()` succeeded, if any. -/
def upsertSelect (posts : List Post) (r : PostRecord) : Option (Post → Bool) :=
  if strTruthy r.linkedin_post_id ∧ posts.any (postIdPred r) then
    some (postIdPred r)
  else if strTruthy r.title ∧ posts.any (dateTitlePred r) then
    some (dateTitlePred r)
  else if !strTruthy r.title ∧ posts.any (dateNoTitlePred r) then
    some (dateNoTitlePred r)
  else none

/-- The counter merge and fill-if-empty block of `_upsert_post` (lines
563-575): max-wins on the six cumulative counters (the stored columns are
non-nullable, so the `or 0` guards are identities), fill-if-empty on the
identity fields. -/
def aggMergeFields (p : Post) (r : PostRecord) : Post :=
  { p with
    impressions := max p.impressions r.impressions
    members_reached := max p.members_reached r.members_reached
    reactions := max p.reactions r.reactions
    comments := max p.comments r.comments
    shares := max p.shares r.shares
    clicks := max p.clicks r.clicks
    linkedin_post_id :=
      if strTruthy r.linkedin_post_id && !strTruthy p.linkedin_post_id
      then r.linkedin_post_id else p.linkedin_post_id
    post_url :=
      if strTruthy r.post_url && !strTruthy p.post_url
      then r.post_url else p.post_url
    post_type :=
      if strTruthy r.post_type && !strTruthy p.post_type
      then r.post_type else p.post_type }

/-- The one-way status transition shared by `_upsert_post` and
`ingest_per_post_xlsx`: a published post that carries authored content
becomes analytics-linked. -/
def statusTransition (p : Post) : Post :=
  if p.status == some "published" && strTruthy p.content then
    { p with status := some "analytics_linked" }
  else p

/-- The in-place update of a matched post in `_upsert_post`: merge fields,
recompute the engagement rate, then the status transition. -/
def applyAggUpdate (p : Post) (r : PostRecord) : Post :=
  statusTransition (recalcEngagementRate (aggMergeFields p r))

/-- The `Post(...)` construction of `_upsert_post` when no match is found;
unset columns take their schema defaults. -/
def mkNewPost (id : Nat) (r : PostRecord) : Post :=
  { id := id
    linkedin_post_id := r.linkedin_post_id
    post_url := r.post_url
    title := r.title
    post_date := r.post_date
    post_type := r.post_type
    impressions := r.impressions
    members_reached := r.members_reached
    reactions := r.reactions
    comments := r.comments
    shares := r.shares
    clicks := r.clicks
    engagement_rate := r.engagement_rate
    post_hour := none
    content := none
    status := none
    saves := 0
    sends := 0
    profile_views := 0
    followers_gained := 0
    reposts := 0 }

/-- `_upsert_post` over the posts table; `nextId` models autoincrement. -/
def upsertPost (posts : List Post) (nextId : Nat) (r : PostRecord) :
    List Post × Nat :=
  match upsertSelect posts r with
  | some q => (updateFirst q (fun p => applyAggUpdate p r) posts, nextId)
  | none => (posts ++ [mkNewPost nextId r], nextId + 1)

/-- `_upsert_daily_metric` (the record's `engagements` key is never read). -/
def upsertDailyMetric (metrics : List DailyMetric) (r : DailyMetricRecord) :
    List DailyMetric :=
  let q := fun (m : DailyMetric) => m.post_id == r.post_id && m.metric_date == r.metric_date
  if metrics.any q then
    updateFirst q
      (fun m => { m with
        impressions := max m.impressions r.impressions
        members_reached := max m.members_reached r.members_reached
        reactions := max m.reactions r.reactions
        comments := max m.comments r.comments
        shares := max m.shares r.shares
        clicks := max m.clicks r.clicks }) metrics
  else
    metrics ++ [{ post_id := r.post_id, metric_date := r.metric_date,
                  impressions := r.impressions, members_reached := r.members_reached,
                  reactions := r.reactions, comments := r.comments,
                  shares := r.shares, clicks := r.clicks }]

/-- `_upsert_follower_snapshot`: keyed on date, overwrite-wins. -/
def upsertFollowerSnapshot (snaps : List FollowerSnapshot) (r : FollowerSnapshot) :
    List FollowerSnapshot :=
  let q := fun (s : FollowerSnapshot) => s.snapshot_date == r.snapshot_date
  if snaps.any q then
    updateFirst q
      (fun s => { s with total_followers := r.total_followers,
                         new_followers := r.new_followers }) snaps
  else snaps ++ [r]

/-- `_upsert_demographic_snapshot`: keyed on the (date, category, value)
triple, overwrite-wins on the percentage. -/
def upsertDemographicSnapshot (snaps : List DemographicSnapshot)
    (r : DemographicSnapshot) : List DemographicSnapshot :=
  let q := fun (s : DemographicSnapshot) =>
    s.snapshot_date == r.snapshot_date && s.category == r.category && s.value == r.value
  if snaps.any q then
    updateFirst q (fun s => { s with percentage := r.percentage }) snaps
  else snaps ++ [r]

/-- `ParsedExport` from ingest.py. -/
structure ParsedExport where
  posts : List PostRecord := []
  daily_metrics : List DailyMetricRecord := []
  follower_snapshots : List FollowerSnapshot := []
  demographic_snapshots : List DemographicSnapshot := []
  warnings : List String := []
deriving DecidableEq, Repr

/-- `ImportStats` from ingest.py. -/
structure ImportStats where
  posts_upserted : Nat := 0
  daily_metrics_upserted : Nat := 0
  follower_snapshots_upserted : Nat := 0
  demographic_snapshots_upserted : Nat := 0
  warnings : List String := []
deriving DecidableEq, Repr

/-- `ImportStats.total_records`. -/
def totalRecords (s : ImportStats) : Nat :=
  s.posts_upserted + s.daily_metrics_upserted +
  s.follower_snapshots_upserted + s.demographic_snapshots_upserted

/-- `load_to_db`: sequential upserts of every parsed record (the
per-record `except` arms are unreachable in this pure model, so every
record counts as upserted). -/
def loadToDb (db : Db) (parsed : ParsedExport) : Db × ImportStats :=
  let pr := parsed.posts.foldl
    (fun (acc : List Post × Nat) r => upsertPost acc.1 acc.2 r)
    (db.posts, db.nextPostId)
  let dms := parsed.daily_metrics.foldl upsertDailyMetric db.dailyMetrics
  let fss := parsed.follower_snapshots.foldl upsertFollowerSnapshot db.followerSnapshots
  let dss := parsed.demographic_snapshots.foldl upsertDemographicSnapshot
    db.demographicSnapshots
  ({ db with posts := pr.1, nextPostId := pr.2, dailyMetrics := dms,
             followerSnapshots := fss, demographicSnapshots := dss },
   { posts_upserted := parsed.posts.length
     daily_metrics_upserted := parsed.daily_metrics.length
     follower_snapshots_upserted := parsed.follower_snapshots.length
     demographic_snapshots_upserted := parsed.demographic_snapshots.length
     warnings := parsed.warnings })

/-! ### Validation and aggregate parse orchestration -/

/-- The saved upload as the ingestion entry points see it. -/
structure UploadFile where
  present : Bool := true
  bytes : List Nat := []
  suffix : String := ".xlsx"
deriving DecidableEq, Repr

/-- `MAX_FILE_SIZE_BYTES`: 50 MB. -/
def MAX_FILE_SIZE_BYTES : Nat := 50 * 1024 * 1024

/-- `ALLOWED_EXTENSIONS`. -/
def ALLOWED_EXTENSIONS : List String := [".xlsx", ".xls", ".csv"]

/-- Error outcomes of the ingestion pipeline.  `osError` models the
uncaught `FileNotFoundError` escaping `compute_file_hash`;
`duplicateFile` carries the prior upload's filename and date as the
`DuplicateFileError` message does. -/
inductive IngestErr where
  | osError (msg : String)
  | ingestError (msg : String)
  | duplicateFile (priorFilename : String) (priorDate : PyDate)
deriving DecidableEq, Repr

/-- `validate_upload`: the four checks in source order; `none` means the
file passed validation. -/
def validateUpload (f : UploadFile) : Option IngestErr :=
  if !f.present then some (.ingestError "File not found.")
  else if f.bytes.length = 0 then some (.ingestError "Uploaded file is empty.")
  else if f.bytes.length > MAX_FILE_SIZE_BYTES then
    some (.ingestError "File exceeds maximum size of 50 MB.")
  else if !(ALLOWED_EXTENSIONS.contains (pyLower f.suffix)) then
    some (.ingestError "Unsupported file type.")
  else none

/-- Observable steps of one `ingest_file` run, in execution order. -/
inductive Phase where
  | hashed : Phase
  | validated : Phase
  | fmtDetected : Phase
  | parsedSheets : Phase
  | parsedPerPost : Phase
  | persisted : Phase
deriving DecidableEq, Repr

/-- `parse_linkedin_export`: validation first, then the CSV no-op path,
then workbook decoding (openpyxl is modelled as the external `decode`
argument) and the five sheet parsers with their missing-sheet warnings.
Returns the executed phases alongside the result. -/
def parseLinkedInExport (today : PyDate) (decode : List Nat → Option Workbook)
    (f : UploadFile) : List Phase × Except IngestErr ParsedExport :=
  match validateUpload f with
  | some e => ([.validated], .error e)
  | none =>
    if pyLower f.suffix = ".csv" then
      ([.validated],
       .ok { warnings := ["CSV files are accepted but LinkedIn exports are .xlsx. No data parsed."] })
    else
      match decode f.bytes with
      | none => ([.validated], .error (.ingestError "Failed to read file."))
      | some wb =>
        if wb = [] then ([.validated], .error (.ingestError "No sheets found in file."))
        else
          let w1 := match getSheet wb "DISCOVERY" with
            | some _ => ([] : List String)
            | none => ["Sheet 'DISCOVERY' not found."]
          let edm := match getSheet wb "ENGAGEMENT" with
            | some ws => (parseEngagementSheet ws, ([] : List String))
            | none => ([], ["Sheet 'ENGAGEMENT' not found."])
          let tpp := match getSheet wb "TOP POSTS" with
            | some ws => (parseTopPostsSheet ws, ([] : List String))
            | none => ([], ["Sheet 'TOP POSTS' not found."])
          let fsp := match getSheet wb "FOLLOWERS" with
            | some ws => parseFollowersSheet ws
            | none => ([], ["Sheet 'FOLLOWERS' not found."])
          let dsp := match getSheet wb "DEMOGRAPHICS" with
            | some ws => parseDemographicsSheet today ws
            | none => ([], ["Sheet 'DEMOGRAPHICS' not found."])
          ([.validated, .parsedSheets],
           .ok { posts := tpp.1, daily_metrics := edm.1, follower_snapshots := fsp.1,
                 demographic_snapshots := dsp.1,
                 warnings := w1 ++ edm.2 ++ tpp.2 ++ fsp.2 ++ dsp.2 })

/-! ### Per-post ingestion (`ingest_per_post_xlsx`) -/

/-- The `metrics` dictionary assembled from the PERFORMANCE key/value map. -/
structure PerPostMetrics where
  impressions : ℤ
  members_reached : ℤ
  reactions : ℤ
  comments : ℤ
  reposts : ℤ
  saves : ℤ
  sends : ℤ
  profile_views : ℤ
  followers_gained : ℤ
deriving DecidableEq, Repr

/-- The result dictionary returned by `ingest_per_post_xlsx`. -/
structure PerPostResult where
  post_id : Nat
  linkedin_post_id : Option String
  demographics_imported : Nat
deriving DecidableEq, Repr

/-- The in-place update of a matched post on the per-post path: the nine
metric fields are overwritten with the incoming exact values (shares and
clicks have no per-post counterpart and stay), the post hour is set when
parsed, the URL fills if empty, then rate recomputation and the status
transition. -/
def perPostApplyUpdate (p : Post) (m : PerPostMetrics) (post_hour : Option ℤ)
    (post_url : String) : Post :=
  let p1 := { p with
    impressions := m.impressions
    members_reached := m.members_reached
    reactions := m.reactions
    comments := m.comments
    reposts := m.reposts
    saves := m.saves
    sends := m.sends
    profile_views := m.profile_views
    followers_gained := m.followers_gained }
  let p2 := match post_hour with
    | some h => { p1 with post_hour := some h }
    | none => p1
  let p3 := if post_url ≠ "" ∧ !strTruthy p2.post_url
            then { p2 with post_url := some post_url } else p2
  statusTransition (recalcEngagementRate p3)

/-- The `PostDemographic` upsert loop at the end of `ingest_per_post_xlsx`;
returns the new table and the count of inserted (not overwritten) rows. -/
def perPostUpsertDemos (pdems : List PostDemographic) (pid : Nat)
    (rows : List PerPostDemoRow) : List PostDemographic × Nat :=
  rows.foldl
    (fun (acc : List PostDemographic × Nat) row =>
      let q := fun (d : PostDemographic) =>
        d.post_id == pid && d.category == row.category && d.value == row.value
      if acc.1.any q then
        (updateFirst q (fun d => { d with percentage := row.percentage }) acc.1, acc.2)
      else
        (acc.1 ++ [{ post_id := pid, category := row.category, value := row.value,
                     percentage := row.percentage }], acc.2 + 1))
    (pdems, 0)

/-- The post-resolution predicate of `ingest_per_post_xlsx`: primary match
by the extracted URN id, falling back to the first post with the same post
date (regardless of title). -/
def perPostMatchPred (posts : List Post) (lid : Option String) (post_date : PyDate) :
    Post → Bool :=
  match lid with
  | some i =>
    if (posts.find? (fun p => p.linkedin_post_id == some i)).isSome then
      (fun p => p.linkedin_post_id == some i)
    else (fun p => p.post_date == post_date)
  | none => (fun p => p.post_date == post_date)

/-- `ingest_per_post_xlsx`. -/
def ingestPerPostXlsx (today : PyDate) (db : Db) (wb : Workbook) :
    Except IngestErr (Db × PerPostResult) :=
  let perfWs := wb.foldl
    (fun acc s => if pyUpper (pyStrip s.1) == "PERFORMANCE" then some s.2 else acc) none
  let demoWs := wb.foldl
    (fun acc s => if pyUpper (pyStrip s.1) == "TOP DEMOGRAPHICS" then some s.2 else acc) none
  match perfWs with
  | none => .error (.ingestError "Per-post XLSX is missing the PERFORMANCE sheet.")
  | some pws =>
    match demoWs with
    | none => .error (.ingestError "Per-post XLSX is missing the TOP DEMOGRAPHICS sheet.")
    | some dws =>
      let perf := parsePerPostPerformance pws
      let post_url := dictGet perf "Post URL" ""
      let linkedin_post_id := extractUrnFromUrl post_url
      let post_hour := parsePostHour (dictGet perf "Post Publish Time" "")
      let metrics : PerPostMetrics := {
        impressions := parseIntWithCommas (dictGet perf "Impressions" "0")
        members_reached := parseIntWithCommas (dictGet perf "Members reached" "0")
        reactions := parseIntWithCommas (dictGet perf "Reactions" "0")
        comments := parseIntWithCommas (dictGet perf "Comments" "0")
        reposts := parseIntWithCommas (dictGet perf "Reposts" "0")
        saves := parseIntWithCommas (dictGet perf "Saves" "0")
        sends := parseIntWithCommas (dictGet perf "Sends on LinkedIn" "0")
        profile_views := parseIntWithCommas (dictGet perf "Profile viewers from this post" "0")
        followers_gained :=
          parseIntWithCommas (dictGet perf "Followers gained from this post" "0") }
      let post_date := (parsePostDateStr (dictGet perf "Post Date" "")).getD today
      let upd := updateFirstAndGet (perPostMatchPred db.posts linkedin_post_id post_date)
        (fun p => perPostApplyUpdate p metrics post_hour post_url) db.posts
      match upd.2 with
      | some post =>
        let demos := perPostUpsertDemos db.postDemographics post.id
          (parsePerPostDemographics dws)
        .ok ({ db with posts := upd.1, postDemographics := demos.1 },
             { post_id := post.id, linkedin_post_id := linkedin_post_id,
               demographics_imported := demos.2 })
      | none =>
        let newPost := recalcEngagementRate
          { id := db.nextPostId
            linkedin_post_id := linkedin_post_id
            post_url := if post_url ≠ "" then some post_url else none
            title := none
            post_date := post_date
            post_type := none
            impressions := metrics.impressions
            members_reached := metrics.members_reached
            reactions := metrics.reactions
            comments := metrics.comments
            shares := 0
            clicks := 0
            engagement_rate := 0
            post_hour := post_hour
            content := none
            status := none
            saves := metrics.saves
            sends := metrics.sends
            profile_views := metrics.profile_views
            followers_gained := metrics.followers_gained
            reposts := metrics.reposts }
        let demos := perPostUpsertDemos db.postDemographics newPost.id
          (parsePerPostDemographics dws)
        .ok ({ db with posts := db.posts ++ [newPost], nextPostId := db.nextPostId + 1,
                       postDemographics := demos.1 },
             { post_id := newPost.id, linkedin_post_id := linkedin_post_id,
               demographics_imported := demos.2 })

/-! ### Full pipeline (`ingest_file`) -/

/-- The aggregate-format tail of `ingest_file`: parse, load, record the
upload. -/
def ingestAggregateTail (today : PyDate) (decode : List Nat → Option Workbook)
    (db : Db) (f : UploadFile) (originalFilename fileHash : String)
    (pre : List Phase) : List Phase × Db × Except IngestErr (Upload × ImportStats) :=
  let pr := parseLinkedInExport today decode f
  match pr.2 with
  | .error e => (pre ++ pr.1, db, .error e)
  | .ok parsed =>
    let ls := loadToDb db parsed
    let upload : Upload := { filename := originalFilename, file_hash := fileHash,
                             upload_date := today,
                             records_imported := totalRecords ls.2,
                             status := "completed" }
    (pre ++ pr.1 ++ [.persisted],
     { ls.1 with uploads := ls.1.uploads ++ [upload] },
     .ok (upload, ls.2))

/-- `ingest_file`: hash, duplicate gate, format auto-detection for
Excel-family files, then the per-post or aggregate pipeline.  Returns the
executed phases, the resulting database state, and the outcome. -/
def ingestFile (today : PyDate) (decode : List Nat → Option Workbook) (db : Db)
    (f : UploadFile) (originalFilename : String) :
    List Phase × Db × Except IngestErr (Upload × ImportStats) :=
  if !f.present then ([], db, .error (.osError "No such file or directory"))
  else
    let fileHash := sha256Hex f.bytes
    match db.uploads.find? (fun u => u.file_hash == fileHash) with
    | some u => ([.hashed], db, .error (.duplicateFile u.filename u.upload_date))
    | none =>
      if pyLower f.suffix = ".xlsx" ∨ pyLower f.suffix = ".xls" then
        let fmt := match decode f.bytes with
          | some wb => detectXlsxFormat (wb.map (·.1))
          | none => "aggregate"
        if fmt = "per_post" then
          match decode f.bytes with
          | some wb =>
            match ingestPerPostXlsx today db wb with
            | .ok dbres =>
              let upload : Upload := { filename := originalFilename,
                                       file_hash := fileHash, upload_date := today,
                                       records_imported := 1, status := "completed" }
              ([.hashed, .fmtDetected, .parsedPerPost, .persisted],
               { dbres.1 with uploads := dbres.1.uploads ++ [upload] },
               .ok (upload, { posts_upserted := 1 }))
            | .error _ =>
              ([.hashed, .fmtDetected], db,
               .error (.ingestError "Per-post XLSX ingest failed."))
          | none =>
            ([.hashed, .fmtDetected], db,
             .error (.ingestError "Per-post XLSX ingest failed."))
        else
          ingestAggregateTail today decode db f originalFilename fileHash
            [.hashed, .fmtDetected]
      else
        ingestAggregateTail today decode db f originalFilename fileHash [.hashed]

/-! ### Helper lemmas on the list-update primitives -/

theorem updateFirst_first_match {α} (q : α → Bool) (f : α → α) :
    ∀ (l1 : List α) (p : α) (l2 : List α), (∀ x ∈ l1, q x = false) → q p = true →
      updateFirst q f (l1 ++ p :: l2) = l1 ++ f p :: l2 := by
  intro l1
  induction l1 with
  | nil => intro p l2 _ hp; simp [updateFirst, hp]
  | cons x xs ih =>
    intro p l2 h hp
    have hx : q x = false := h x (by simp)
    simp only [List.cons_append, updateFirst, hx, Bool.false_eq_true, if_false]
    exact congrArg (x :: ·) (ih p l2 (fun y hy => h y (by simp [hy])) hp)

theorem updateFirst_no_match {α} (q : α → Bool) (f : α → α) :
    ∀ l : List α, (∀ x ∈ l, q x = false) → updateFirst q f l = l := by
  intro l
  induction l with
  | nil => intro _; rfl
  | cons x xs ih =>
    intro h
    have hx : q x = false := h x (by simp)
    simp only [updateFirst, hx, Bool.false_eq_true, if_false]
    exact congrArg (x :: ·) (ih (fun y hy => h y (by simp [hy])))

theorem updateFirstAndGet_first_match {α} (q : α → Bool) (f : α → α) :
    ∀ (l1 : List α) (p : α) (l2 : List α), (∀ x ∈ l1, q x = false) → q p = true →
      updateFirstAndGet q f (l1 ++ p :: l2) = (l1 ++ f p :: l2, some (f p)) := by
  intro l1
  induction l1 with
  | nil => intro p l2 _ hp; simp [updateFirstAndGet, hp]
  | cons x xs ih =>
    intro p l2 h hp
    have hx : q x = false := h x (by simp)
    have hrec := ih p l2 (fun y hy => h y (by simp [hy])) hp
    simp [updateFirstAndGet, hx, hrec]

theorem updateFirstAndGet_no_match {α} (q : α → Bool) (f : α → α) :
    ∀ l : List α, (∀ x ∈ l, q x = false) → updateFirstAndGet q f l = (l, none) := by
  intro l
  induction l with
  | nil => intro _; rfl
  | cons x xs ih =>
    intro h
    have hx : q x = false := h x (by simp)
    simp only [updateFirstAndGet, hx, Bool.false_eq_true, if_false,
      ih (fun y hy => h y (by simp [hy]))]

theorem updateFirst_get? {α} (q : α → Bool) (f : α → α) :
    ∀ (l : List α) (i : Nat) (p : α), l[i]? = some p →
      (updateFirst q f l)[i]? = some p ∨ (updateFirst q f l)[i]? = some (f p) := by
  intro l
  induction l with
  | nil => intro i p h; simp at h
  | cons x xs ih =>
    intro i p h
    cases i with
    | zero =>
      simp only [List.getElem?_cons_zero, Option.some.injEq] at h
      subst h
      by_cases hx : q x = true
      · right; simp [updateFirst, hx]
      · left; simp [updateFirst, hx]
    | succ j =>
      simp only [List.getElem?_cons_succ] at h
      by_cases hx : q x = true
      · left; simp [updateFirst, hx, h]
      · rcases ih j p h with h1 | h1
        · left; simp [updateFirst, hx, h1]
        · right; simp [updateFirst, hx, h1]

theorem mem_updateFirst_of_no_match {α} (q : α → Bool) (f : α → α) :
    ∀ (l : List α) (s : α), s ∈ l → q s = false → s ∈ updateFirst q f l := by
  intro l
  induction l with
  | nil => intro s h _; simp at h
  | cons x xs ih =>
    intro s hs hq
    by_cases hx : q x = true
    · simp only [updateFirst, hx, if_true]
      rcases List.mem_cons.mp hs with h | h
      · subst h; rw [hq] at hx; exact absurd hx (by simp)
      · exact List.mem_cons_of_mem _ h
    · simp only [updateFirst, hx, if_false]
      rcases List.mem_cons.mp hs with h | h
      · subst h; exact List.mem_cons_self _ _
      · exact List.mem_cons_of_mem _ (ih s h hq)

theorem updateFirst_map_eq {α β} (q : α → Bool) (f : α → α) (g : α → β)
    (hf : ∀ x, g (f x) = g x) :
    ∀ l : List α, (updateFirst q f l).map g = l.map g := by
  intro l
  induction l with
  | nil => rfl
  | cons x xs ih =>
    by_cases hx : q x = true
    · simp [updateFirst, hx, hf]
    · simp [updateFirst, hx, ih]

theorem updateFirst_length {α} (q : α → Bool) (f : α → α) :
    ∀ l : List α, (updateFirst q f l).length = l.length := by
  intro l
  induction l with
  | nil => rfl
  | cons x xs ih =>
    by_cases hx : q x = true
    · simp [updateFirst, hx]
    · simp [updateFirst, hx, ih]

/-! ### Character class helpers -/

theorem mem_of_getLast? {α} : ∀ (l : List α) (a : α), l.getLast? = some a → a ∈ l := by
  intro l
  induction l with
  | nil => intro a h; simp at h
  | cons x xs ih =>
    intro a h
    cases xs with
    | nil => simp only [List.getLast?_singleton, Option.some.injEq] at h; simp [h]
    | cons y ys =>
      rw [List.getLast?_cons_cons] at h
      exact List.mem_cons_of_mem _ (ih a h)

theorem digit_ne_char (c a : Char) (h : c.isDigit = true) (ha : a.isDigit = false) :
    (c == a) = false := by
  cases hc : c == a
  · rfl
  · exfalso
    have : c = a := by exact beq_iff_eq.mp hc
    subst this
    rw [h] at ha
    exact absurd ha (by simp)

theorem digit_not_ws (c : Char) (h : c.isDigit = true) : c.isWhitespace = false := by
  cases hw : c.isWhitespace
  · rfl
  · exfalso
    have hc : c = ' ' ∨ c = '\t' ∨ c = '\r' ∨ c = '\n' := by
      simpa [Char.isWhitespace, or_assoc] using hw
    rcases hc with h1 | h1 | h1 | h1 <;> (subst h1; exact absurd h (by decide))

theorem dropWhile_eq_self_of_all {α} (p : α → Bool) :
    ∀ l : List α, (∀ c ∈ l, p c = false) → l.dropWhile p = l := by
  intro l h
  cases l with
  | nil => rfl
  | cons x xs => simp [List.dropWhile_cons, h x (by simp)]

theorem takeWhile_eq_self_of_all {α} (p : α → Bool) :
    ∀ l : List α, (∀ c ∈ l, p c = true) → l.takeWhile p = l := by
  intro l
  induction l with
  | nil => intro _; rfl
  | cons x xs ih =>
    intro h
    simp [List.takeWhile_cons, h x (by simp), ih (fun y hy => h y (by simp [hy]))]

theorem stripWs_eq_self (l : List Char) (h : ∀ c ∈ l, c.isWhitespace = false) :
    stripWsChars l = l := by
  unfold stripWsChars
  rw [dropWhile_eq_self_of_all _ l h,
      dropWhile_eq_self_of_all _ l.reverse (fun c hc => h c (List.mem_reverse.mp hc)),
      List.reverse_reverse]

theorem parseSign_digit (c : Char) (r : List Char) (h : c.isDigit = true) :
    parseSign (c :: r) = (1, c :: r) := by
  have h1 : (c == '+') = false := digit_ne_char c '+' h (by decide)
  have h2 : (c == '-') = false := digit_ne_char c '-' h (by decide)
  simp [parseSign, h1, h2]

theorem takeDigitGroup_all_digits (l : List Char) (hne : l ≠ [])
    (h : ∀ c ∈ l, c.isDigit = true) : takeDigitGroup l = some (l, []) := by
  have htw : l.takeWhile (fun c => c.isDigit || c == '_') = l :=
    takeWhile_eq_self_of_all _ l (fun c hc => by simp [h c hc])
  have hhead : ¬(l.head? = some '_' ∨ l.getLast? = some '_') := by
    rintro (hh | hh)
    · cases l with
      | nil => simp at hh
      | cons x xs =>
        simp only [List.head?_cons, Option.some.injEq] at hh
        subst hh
        exact absurd (h '_' (by simp)) (by decide)
    · have := mem_of_getLast? l '_' hh
      exact absurd (h '_' this) (by decide)
  have hzip : ((l.zip (l.drop 1)).any (fun p => p.1 == '_' && p.2 == '_')) = false := by
    rw [List.any_eq_false]
    intro p hp
    have hp1 : p.1 ∈ l := (List.of_mem_zip hp).1
    simp [digit_ne_char p.1 '_' (h p.1 hp1) (by decide)]
  have hfil : l.filter (fun c => !(c == '_')) = l := by
    rw [List.filter_eq_self]
    intro c hc
    simp [digit_ne_char c '_' (h c hc) (by decide)]
  unfold takeDigitGroup
  simp only [htw, List.drop_length, if_neg hne, if_neg hhead, hzip, Bool.false_eq_true,
    if_false, hfil]

theorem pyInt_all_digits (l : List Char) (hne : l ≠ [])
    (h : ∀ c ∈ l, c.isDigit = true) : pyIntOfChars l = some ((digitsToNat l : ℤ)) := by
  have hs : stripWsChars l = l :=
    stripWs_eq_self l (fun c hc => digit_not_ws c (h c hc))
  have hsign : parseSign l = (1, l) := by
    cases l with
    | nil => exact absurd rfl hne
    | cons x xs => exact parseSign_digit x xs (h x (by simp))
  unfold pyIntOfChars
  simp only [hs, hsign, takeDigitGroup_all_digits l hne h, one_mul]

/-! ### Claim C6: format detection -/

/-- C6 counterexample: on the sheet set
{PERFORMANCE, TOP DEMOGRAPHICS, DISCOVERY, ENGAGEMENT} the detector
returns `per_post`, although both a DISCOVERY and an ENGAGEMENT sheet are
present — so "returns aggregate iff both a DISCOVERY sheet and an
ENGAGEMENT sheet are present" is false of the code. -/
theorem C6_counterexample :
    detectXlsxFormat ["PERFORMANCE", "TOP DEMOGRAPHICS", "DISCOVERY", "ENGAGEMENT"]
      = "per_post" ∧
    (["PERFORMANCE", "TOP DEMOGRAPHICS", "DISCOVERY", "ENGAGEMENT"].map
        (fun s => pyLower (pyStrip s))).contains "discovery" = true ∧
    (["PERFORMANCE", "TOP DEMOGRAPHICS", "DISCOVERY", "ENGAGEMENT"].map
        (fun s => pyLower (pyStrip s))).contains "engagement" = true ∧
    detectXlsxFormat ["PERFORMANCE", "TOP DEMOGRAPHICS", "DISCOVERY", "ENGAGEMENT"]
      ≠ "aggregate" := by
  decide

/-- C6 (amended): over the trimmed, lower-cased sheet-name set, detection
returns `per_post` iff PERFORMANCE and TOP DEMOGRAPHICS are both present;
`aggregate` iff it is not `per_post` and DISCOVERY and ENGAGEMENT are both
present; `unknown` otherwise — and the three concrete sheet sets of the
claim evaluate as stated. -/
theorem C6_detection_characterization (names : List String) :
    (detectXlsxFormat names = "per_post" ↔
      ((names.map (fun s => pyLower (pyStrip s))).contains "performance" = true ∧
       (names.map (fun s => pyLower (pyStrip s))).contains "top demographics" = true)) ∧
    (detectXlsxFormat names = "aggregate" ↔
      (¬((names.map (fun s => pyLower (pyStrip s))).contains "performance" = true ∧
         (names.map (fun s => pyLower (pyStrip s))).contains "top demographics" = true) ∧
       (names.map (fun s => pyLower (pyStrip s))).contains "discovery" = true ∧
       (names.map (fun s => pyLower (pyStrip s))).contains "engagement" = true)) ∧
    (detectXlsxFormat names = "unknown" ↔
      (¬((names.map (fun s => pyLower (pyStrip s))).contains "performance" = true ∧
         (names.map (fun s => pyLower (pyStrip s))).contains "top demographics" = true) ∧
       ¬((names.map (fun s => pyLower (pyStrip s))).contains "discovery" = true ∧
         (names.map (fun s => pyLower (pyStrip s))).contains "engagement" = true))) := by
  simp only [detectXlsxFormat]
  split_ifs with h1 h2
  · refine ⟨⟨fun _ => h1, fun _ => rfl⟩,
      ⟨fun h => absurd h (by decide), fun hc => absurd h1 hc.1⟩,
      ⟨fun h => absurd h (by decide), fun hc => absurd h1 hc.1⟩⟩
  · refine ⟨⟨fun h => absurd h (by decide), fun hc => absurd hc h1⟩,
      ⟨fun _ => ⟨h1, h2⟩, fun _ => rfl⟩,
      ⟨fun h => absurd h (by decide), fun hc => absurd h2 hc.2⟩⟩
  · refine ⟨⟨fun h => absurd h (by decide), fun hc => absurd hc h1⟩,
      ⟨fun h => absurd h (by decide), fun hc => absurd hc.2 h2⟩,
      ⟨fun _ => ⟨h1, h2⟩, fun _ => rfl⟩⟩

/-- C6 witness: the three concrete sheet sets of the claim, settled by the
characterization. -/
theorem C6_detection_witness :
    detectXlsxFormat ["PERFORMANCE", "TOP DEMOGRAPHICS"] = "per_post" ∧
    detectXlsxFormat ["DISCOVERY", "ENGAGEMENT", "FOLLOWERS"] = "aggregate" ∧
    detectXlsxFormat ["RANDOM"] = "unknown" := by
  refine ⟨(C6_detection_characterization ["PERFORMANCE", "TOP DEMOGRAPHICS"]).1.mpr
      (by decide), ?_, ?_⟩
  · exact (C6_detection_characterization ["DISCOVERY", "ENGAGEMENT", "FOLLOWERS"]).2.1.mpr
      (by decide)
  · exact (C6_detection_characterization ["RANDOM"]).2.2.mpr (by decide)

/-! ### Claim C8: integer coercion -/

/-- C8 counterexample: the integer coercion used by the aggregate sheet
parsers, `_safe_int`, does not accept thousands separators — on the string
"1,316" it returns the default 0, not 1316; only the per-post
`_parse_int_with_commas` handles the separator. -/
theorem C8_counterexample :
    safeInt (.text "1,316") = 0 ∧ (0 : ℤ) ≠ 1316 ∧
    parseIntWithCommas "1,316" = 1316 := by
  decide

/-- C8 (amended): the per-post coercion `_parse_int_with_commas` accepts
digit strings with comma thousands separators and returns the represented
integer; the aggregate parsers' `_safe_int` accepts numeric cells (yielding
the truncated integer) and returns the default on null input or on any
string `float()` cannot parse — which includes comma-separated strings such
as "1,316".  Both are total functions (never raise). -/
theorem C8_integer_coercion :
    (∀ l : List Char, (l.filter (fun c => !(c == ','))) ≠ [] →
      (∀ c ∈ l, c.isDigit = true ∨ c = ',') →
      parseIntWithCommas (String.mk l) =
        ((digitsToNat (l.filter (fun c => !(c == ','))) : ℤ))) ∧
    (∀ n : ℤ, safeInt (.num (n : ℚ)) = n) ∧
    (∀ d : ℤ, safeInt .empty d = d) ∧
    (∀ s : String, pyFloatOfChars s.data = none → ∀ d : ℤ, safeInt (.text s) d = d) ∧
    safeInt (.text "1,316") = 0 ∧
    parseIntWithCommas "1,316" = 1316 ∧
    parseIntWithCommas "1316" = 1316 := by
  refine ⟨?_, ?_, ?_, ?_, by decide, by decide, by decide⟩
  · intro l hne h
    have hdig : ∀ c ∈ l.filter (fun c => !(c == ',')), c.isDigit = true := by
      intro c hc
      have hm := List.mem_filter.mp hc
      rcases h c hm.1 with hd | hd
      · exact hd
      · subst hd
        simp at hm
    unfold parseIntWithCommas
    have : (String.mk l).data = l := rfl
    rw [this, pyInt_all_digits _ hne hdig, Option.getD_some]
  · intro n
    show pyTrunc ((n : ℚ)) = n
    unfold pyTrunc
    split_ifs with h
    · rw [Rat.floor_def']; simp
    · rw [show (-(n : ℚ)) = ((-n : ℤ) : ℚ) by push_cast; ring, Rat.floor_def']
      simp
  · intro d; rfl
  · intro s h d
    simp [safeInt, h]

/-- C8 witness: the amended theorem applied at the concrete comma string
"1,316" and at an unparseable string. -/
theorem C8_integer_coercion_witness :
    parseIntWithCommas (String.mk ['1', ',', '3', '1', '6']) = 1316 ∧
    safeInt (.text "zzz") 0 = 0 ∧
    safeInt (.num ((-7 : ℤ) : ℚ)) = -7 := by
  refine ⟨?_, C8_integer_coercion.2.2.2.1 "zzz" (by decide) 0,
    C8_integer_coercion.2.1 (-7)⟩
  have := C8_integer_coercion.1 ['1', ',', '3', '1', '6'] (by decide)
    (by decide)
  rw [this]
  decide

/-! ### Claim C9: percentage coercion -/

/-- C9: the percentage coercion of the per-post demographics parser maps a
numeric cell to itself, a string containing "<" to the sentinel 0.005, a
string ending in "%" whose stripped prefix parses to the parsed number
divided by 100, and any other unparseable input to 0 — with the claim's
concrete table evaluated. -/
theorem C9_percentage_coercion :
    (∀ q : ℚ, perPostPercentage (.num q) = q) ∧
    (∀ s : String, s.data.contains '<' = true → perPostPercentage (.text s) = 1 / 200) ∧
    (∀ (s : String) (x : ℚ), s.data.contains '<' = false → strEndsWith s "%" = true →
      pyFloatOfChars (rstripPercent (stripWsChars s.data)) = some x →
      perPostPercentage (.text s) = x / 100) ∧
    (∀ s : String, s.data.contains '<' = false →
      pyFloatOfChars (rstripPercent (stripWsChars s.data)) = none →
      perPostPercentage (.text s) = 0) ∧
    perPostPercentage (.num (31 / 100)) = 31 / 100 ∧
    perPostPercentage (.text "< 1%") = 1 / 200 ∧
    perPostPercentage (.text "15%") = 15 / 100 ∧
    perPostPercentage (.text "typo") = 0 := by
  refine ⟨fun q => rfl, ?_, ?_, ?_, by decide, by decide, by decide, by decide⟩
  · intro s h
    have hm : '<' ∈ s.data := by simpa using h
    simp [perPostPercentage, hm, one_div]
  · intro s x h hes hx
    have hm : '<' ∉ s.data := by simpa using h
    simp [perPostPercentage, hm, perPostPctFallback, hx]
  · intro s h hx
    have hm : '<' ∉ s.data := by simpa using h
    simp [perPostPercentage, hm, perPostPctFallback, hx]

/-- C9 witness: the general clauses applied at concrete strings. -/
theorem C9_percentage_coercion_witness :
    perPostPercentage (.text "also < style") = 1 / 200 ∧
    perPostPercentage (.text "2.5%") = (5 / 2 : ℚ) / 100 ∧
    perPostPercentage (.text "n/a") = 0 := by
  refine ⟨C9_percentage_coercion.2.1 "also < style" (by decide),
    C9_percentage_coercion.2.2.1 "2.5%" (5 / 2) (by decide) (by decide) (by decide),
    C9_percentage_coercion.2.2.2.1 "n/a" (by decide) (by decide)⟩

/-! ### Claim C10: demographic snapshots carry the import-day date -/

theorem parseDemographics_fold_dates (today : PyDate) :
    ∀ (ws : List (List CellValue)) (st : Bool × List DemographicSnapshot),
      (∀ r ∈ st.2, r.snapshot_date = today) →
      ∀ r ∈ (ws.foldl (parseDemographicsRow today) st).2, r.snapshot_date = today := by
  intro ws
  induction ws with
  | nil => intro st h; exact h
  | cons row rows ih =>
    intro st h
    rw [List.foldl_cons]
    apply ih
    intro r hr
    simp only [parseDemographicsRow] at hr
    split_ifs at hr
    all_goals try exact h r hr
    all_goals
      rcases List.mem_append.mp hr with hm | hm
      · exact h r hm
      · simp only [List.mem_singleton] at hm
        subst hm
        rfl

/-- C10: every record produced by the aggregate demographics parser carries
the import-day snapshot date (`date.today()`), not a date from the file;
the demographic-snapshot upsert appends a new row when no stored row has
the same (snapshot date, category, value) triple — hence a re-import on a
later calendar day inserts rather than overwrites — and overwrites the
percentage of the first matching row in place when the triple (in
particular the same day) matches, leaving rows of other days untouched. -/
theorem C10_demographics_snapshot_date :
    (∀ (today : PyDate) (ws : List (List CellValue)),
      ∀ r ∈ (parseDemographicsSheet today ws).1, r.snapshot_date = today) ∧
    (∀ (snaps : List DemographicSnapshot) (r : DemographicSnapshot),
      (∀ s ∈ snaps, ¬(s.snapshot_date = r.snapshot_date ∧ s.category = r.category ∧
          s.value = r.value)) →
      upsertDemographicSnapshot snaps r = snaps ++ [r]) ∧
    (∀ (l1 l2 : List DemographicSnapshot) (s r : DemographicSnapshot),
      (∀ x ∈ l1, ¬(x.snapshot_date = r.snapshot_date ∧ x.category = r.category ∧
          x.value = r.value)) →
      s.snapshot_date = r.snapshot_date → s.category = r.category → s.value = r.value →
      upsertDemographicSnapshot (l1 ++ s :: l2) r =
        l1 ++ { s with percentage := r.percentage } :: l2) ∧
    (∀ (snaps : List DemographicSnapshot) (r s : DemographicSnapshot),
      s ∈ snaps → s.snapshot_date ≠ r.snapshot_date →
      s ∈ upsertDemographicSnapshot snaps r) := by
  refine ⟨?_, ?_, ?_, ?_⟩
  · intro today ws r hr
    exact parseDemographics_fold_dates today ws (false, []) (by simp) r hr
  · intro snaps r hno
    unfold upsertDemographicSnapshot
    have hany : (snaps.any fun s => s.snapshot_date == r.snapshot_date &&
        s.category == r.category && s.value == r.value) = false := by
      rw [List.any_eq_false]
      intro s hs
      have hn := hno s hs
      simp only [Bool.and_eq_true, beq_iff_eq]
      tauto
    simp [hany]
  · intro l1 l2 s r hno hsd hsc hsv
    unfold upsertDemographicSnapshot
    have hq : (fun x : DemographicSnapshot => x.snapshot_date == r.snapshot_date &&
        x.category == r.category && x.value == r.value) s = true := by
      simp [hsd, hsc, hsv]
    have hl1 : ∀ x ∈ l1, (fun x : DemographicSnapshot => x.snapshot_date == r.snapshot_date &&
        x.category == r.category && x.value == r.value) x = false := by
      intro x hx
      have hn := hno x hx
      simp only [Bool.and_eq_true, beq_iff_eq]
      by_cases h1 : x.snapshot_date = r.snapshot_date
      · by_cases h2 : x.category = r.category
        · by_cases h3 : x.value = r.value
          · exact absurd ⟨h1, h2, h3⟩ hn
          · simp [h3]
        · simp [h2]
      · simp [h1]
    have hany : ((l1 ++ s :: l2).any fun x => x.snapshot_date == r.snapshot_date &&
        x.category == r.category && x.value == r.value) = true := by
      rw [List.any_eq_true]
      exact ⟨s, by simp, hq⟩
    rw [if_pos hany]
    exact updateFirst_first_match _ _ l1 s l2 hl1 hq
  · intro snaps r s hs hne
    simp only [upsertDemographicSnapshot]
    have hqs : (fun x : DemographicSnapshot => x.snapshot_date == r.snapshot_date &&
        x.category == r.category && x.value == r.value) s = false := by
      have : (s.snapshot_date == r.snapshot_date) = false := by
        simp [hne]
      simp [this]
    split_ifs with hany
    · exact mem_updateFirst_of_no_match _ _ snaps s hs hqs
    · exact List.mem_append_left _ hs

/-- C10 witness: the parser clause at a concrete sheet and the upsert
clauses at concrete rows: a later-day re-import appends a new row, a
same-day re-import overwrites in place, and rows of other days survive. -/
theorem C10_demographics_witness :
    (⟨⟨2026, 2, 28⟩, "job titles", "Engineer", 1⟩ : DemographicSnapshot).snapshot_date
      = ⟨2026, 2, 28⟩ ∧
    upsertDemographicSnapshot [⟨⟨2026, 1, 1⟩, "job titles", "Engineer", 1/2⟩]
        ⟨⟨2026, 2, 1⟩, "job titles", "Engineer", 3/4⟩ =
      [⟨⟨2026, 1, 1⟩, "job titles", "Engineer", 1/2⟩,
       ⟨⟨2026, 2, 1⟩, "job titles", "Engineer", 3/4⟩] ∧
    upsertDemographicSnapshot [⟨⟨2026, 1, 1⟩, "job titles", "Engineer", 1/2⟩]
        ⟨⟨2026, 1, 1⟩, "job titles", "Engineer", 3/4⟩ =
      [⟨⟨2026, 1, 1⟩, "job titles", "Engineer", 3/4⟩] ∧
    (⟨⟨2026, 1, 1⟩, "job titles", "Engineer", 1/2⟩ : DemographicSnapshot) ∈
      upsertDemographicSnapshot [⟨⟨2026, 1, 1⟩, "job titles", "Engineer", 1/2⟩]
        ⟨⟨2026, 2, 1⟩, "locations", "Toronto", 1/4⟩ := by
  refine ⟨?_, ?_, ?_, ?_⟩
  · exact C10_demographics_snapshot_date.1 ⟨2026, 2, 28⟩
      [[.text "Top Demographics", .text "Value", .text "Percentage"],
       [.text "Job titles", .text "Engineer", .num 1]]
      ⟨⟨2026, 2, 28⟩, "job titles", "Engineer", 1⟩ (by decide)
  · exact C10_demographics_snapshot_date.2.1 _ _ (by decide)
  · exact C10_demographics_snapshot_date.2.2.1 [] []
      ⟨⟨2026, 1, 1⟩, "job titles", "Engineer", 1/2⟩
      ⟨⟨2026, 1, 1⟩, "job titles", "Engineer", 3/4⟩ (by simp) rfl rfl rfl
  · exact C10_demographics_snapshot_date.2.2.2 _ _ _ (by decide) (by decide)

/-! ### Claim C3: aggregate upsert matching priority -/

/-- Stored post for the C3 counterexample: same date, no title. -/
def pC3 : Post :=
  { id := 1, linkedin_post_id := none, post_url := none, title := none,
    post_date := ⟨2025, 11, 1⟩, post_type := none, impressions := 10,
    members_reached := 0, reactions := 1, comments := 0, shares := 0, clicks := 0,
    engagement_rate := 0, post_hour := none, content := none, status := none,
    saves := 0, sends := 0, profile_views := 0, followers_gained := 0, reposts := 0 }

/-- C3 counterexample: an incoming record that carries a title but no
external id, against a store holding one same-date title-less post and no
(date, title) match.  The claim's tier 3 ("match on post date alone
against a stored post that has no title") would update that stored post;
the code's tier 3 additionally requires the incoming record to carry no
title, so it creates a new post instead (store grows to two posts). -/
theorem C3_counterexample :
    (upsertPost [pC3] 2 { post_date := ⟨2025, 11, 1⟩, title := some "T" }).1.length = 2 ∧
    pC3.title = none ∧ pC3.post_date = ⟨2025, 11, 1⟩ ∧
    ({ post_date := ⟨2025, 11, 1⟩, title := some "T" } : PostRecord).linkedin_post_id
      = none := by
  decide

/-- C3 (amended): `_upsert_post` picks the stored post by fixed priority
with first match winning — (1) external-id match when the record carries a
truthy id; (2) (post date, title) match when the record carries a truthy
title; (3) post-date match against a stored post with no title, applied
only when the incoming record itself carries no title; and a new post is
created from the record when no tier matches. -/
theorem C3_upsert_matching_priority :
    (∀ (l1 l2 : List Post) (p : Post) (nextId : Nat) (r : PostRecord),
      strTruthy r.linkedin_post_id = true →
      (∀ x ∈ l1, postIdPred r x = false) → postIdPred r p = true →
      upsertPost (l1 ++ p :: l2) nextId r = (l1 ++ applyAggUpdate p r :: l2, nextId)) ∧
    (∀ (l1 l2 : List Post) (p : Post) (nextId : Nat) (r : PostRecord),
      (strTruthy r.linkedin_post_id = false ∨
        ∀ x ∈ l1 ++ p :: l2, postIdPred r x = false) →
      strTruthy r.title = true →
      (∀ x ∈ l1, dateTitlePred r x = false) → dateTitlePred r p = true →
      upsertPost (l1 ++ p :: l2) nextId r = (l1 ++ applyAggUpdate p r :: l2, nextId)) ∧
    (∀ (l1 l2 : List Post) (p : Post) (nextId : Nat) (r : PostRecord),
      (strTruthy r.linkedin_post_id = false ∨
        ∀ x ∈ l1 ++ p :: l2, postIdPred r x = false) →
      strTruthy r.title = false →
      (∀ x ∈ l1, dateNoTitlePred r x = false) → dateNoTitlePred r p = true →
      upsertPost (l1 ++ p :: l2) nextId r = (l1 ++ applyAggUpdate p r :: l2, nextId)) ∧
    (∀ (posts : List Post) (nextId : Nat) (r : PostRecord),
      (strTruthy r.linkedin_post_id = false ∨ ∀ x ∈ posts, postIdPred r x = false) →
      (strTruthy r.title = false ∨ ∀ x ∈ posts, dateTitlePred r x = false) →
      (strTruthy r.title = true ∨ ∀ x ∈ posts, dateNoTitlePred r x = false) →
      upsertPost posts nextId r = (posts ++ [mkNewPost nextId r], nextId + 1)) := by
  have noneOfAll : ∀ (posts : List Post) (q : Post → Bool),
      (∀ x ∈ posts, q x = false) → (posts.any q) = false := by
    intro posts q h
    rw [List.any_eq_false]
    intro x hx
    simp [h x hx]
  refine ⟨?_, ?_, ?_, ?_⟩
  · intro l1 l2 p nextId r hid hl1 hp
    have hany : ((l1 ++ p :: l2).any (postIdPred r)) = true :=
      List.any_eq_true.mpr ⟨p, by simp, hp⟩
    have hsel : upsertSelect (l1 ++ p :: l2) r = some (postIdPred r) := by
      unfold upsertSelect
      rw [if_pos ⟨hid, hany⟩]
    unfold upsertPost
    rw [hsel]
    simp only [updateFirst_first_match (postIdPred r) (fun x => applyAggUpdate x r)
      l1 p l2 hl1 hp]
  · intro l1 l2 p nextId r h1 htitle hl1 hp
    have hc1 : ¬(strTruthy r.linkedin_post_id = true ∧
        ((l1 ++ p :: l2).any (postIdPred r)) = true) := by
      rcases h1 with h | h
      · intro hc
        rw [h] at hc
        exact absurd hc.1 (by simp)
      · intro hc
        rw [noneOfAll _ _ h] at hc
        exact absurd hc.2 (by simp)
    have hany : ((l1 ++ p :: l2).any (dateTitlePred r)) = true :=
      List.any_eq_true.mpr ⟨p, by simp, hp⟩
    have hsel : upsertSelect (l1 ++ p :: l2) r = some (dateTitlePred r) := by
      unfold upsertSelect
      rw [if_neg hc1, if_pos ⟨htitle, hany⟩]
    unfold upsertPost
    rw [hsel]
    simp only [updateFirst_first_match (dateTitlePred r) (fun x => applyAggUpdate x r)
      l1 p l2 hl1 hp]
  · intro l1 l2 p nextId r h1 htitle hl1 hp
    have hc1 : ¬(strTruthy r.linkedin_post_id = true ∧
        ((l1 ++ p :: l2).any (postIdPred r)) = true) := by
      rcases h1 with h | h
      · intro hc
        rw [h] at hc
        exact absurd hc.1 (by simp)
      · intro hc
        rw [noneOfAll _ _ h] at hc
        exact absurd hc.2 (by simp)
    have hc2 : ¬(strTruthy r.title = true ∧
        ((l1 ++ p :: l2).any (dateTitlePred r)) = true) := by
      intro hc
      rw [htitle] at hc
      exact absurd hc.1 (by simp)
    have hany : ((l1 ++ p :: l2).any (dateNoTitlePred r)) = true :=
      List.any_eq_true.mpr ⟨p, by simp, hp⟩
    have hsel : upsertSelect (l1 ++ p :: l2) r = some (dateNoTitlePred r) := by
      unfold upsertSelect
      rw [if_neg hc1, if_neg hc2, if_pos ⟨by simp [htitle], hany⟩]
    unfold upsertPost
    rw [hsel]
    simp only [updateFirst_first_match (dateNoTitlePred r) (fun x => applyAggUpdate x r)
      l1 p l2 hl1 hp]
  · intro posts nextId r h1 h2 h3
    have hc1 : ¬(strTruthy r.linkedin_post_id = true ∧ (posts.any (postIdPred r)) = true) := by
      rcases h1 with h | h
      · intro hc
        rw [h] at hc
        exact absurd hc.1 (by simp)
      · intro hc
        rw [noneOfAll _ _ h] at hc
        exact absurd hc.2 (by simp)
    have hc2 : ¬(strTruthy r.title = true ∧ (posts.any (dateTitlePred r)) = true) := by
      rcases h2 with h | h
      · intro hc
        rw [h] at hc
        exact absurd hc.1 (by simp)
      · intro hc
        rw [noneOfAll _ _ h] at hc
        exact absurd hc.2 (by simp)
    have hc3 : ¬((!strTruthy r.title) = true ∧ (posts.any (dateNoTitlePred r)) = true) := by
      rcases h3 with h | h
      · intro hc
        rw [h] at hc
        exact absurd hc.1 (by simp)
      · intro hc
        rw [noneOfAll _ _ h] at hc
        exact absurd hc.2 (by simp)
    have hsel : upsertSelect posts r = none := by
      unfold upsertSelect
      rw [if_neg hc1, if_neg hc2, if_neg hc3]
    unfold upsertPost
    rw [hsel]

/-- Stored post with an external id, for the C3 witness. -/
def pC3id : Post :=
  { pC3 with id := 3, linkedin_post_id := some "9", post_date := ⟨2025, 11, 2⟩ }

/-- Incoming record matching `pC3id` by external id. -/
def rC3a : PostRecord :=
  { post_date := ⟨2025, 11, 2⟩, linkedin_post_id := some "9", title := some "X" }

/-- Incoming record with a title and no id, matching nothing. -/
def rC3new : PostRecord := { post_date := ⟨2025, 11, 1⟩, title := some "T" }

/-- C3 witness: the tier-1 clause and the creation clause applied at
concrete stores and records. -/
theorem C3_matching_priority_witness :
    upsertPost ([] ++ pC3id :: []) 5 rC3a = ([] ++ applyAggUpdate pC3id rC3a :: [], 5) ∧
    upsertPost [pC3] 7 rC3new = ([pC3] ++ [mkNewPost 7 rC3new], 8) := by
  refine ⟨C3_upsert_matching_priority.1 [] [] pC3id 5 rC3a (by decide) (by decide)
      (by decide),
    C3_upsert_matching_priority.2.2.2 [pC3] 7 rC3new (Or.inl (by decide))
      (Or.inr ?_) (Or.inl (by decide))⟩
  intro x hx
  simp only [List.mem_singleton] at hx
  subst hx
  decide

/-! ### Claim C1: counter monotonicity -/

theorem recalcEngagementRate_fields (p : Post) :
    (recalcEngagementRate p).id = p.id ∧
    (recalcEngagementRate p).post_date = p.post_date ∧
    (recalcEngagementRate p).title = p.title ∧
    (recalcEngagementRate p).impressions = p.impressions ∧
    (recalcEngagementRate p).members_reached = p.members_reached ∧
    (recalcEngagementRate p).reactions = p.reactions ∧
    (recalcEngagementRate p).comments = p.comments ∧
    (recalcEngagementRate p).shares = p.shares ∧
    (recalcEngagementRate p).clicks = p.clicks ∧
    (recalcEngagementRate p).status = p.status ∧
    (recalcEngagementRate p).content = p.content ∧
    (recalcEngagementRate p).linkedin_post_id = p.linkedin_post_id ∧
    (recalcEngagementRate p).post_url = p.post_url ∧
    (recalcEngagementRate p).post_hour = p.post_hour ∧
    (recalcEngagementRate p).saves = p.saves ∧
    (recalcEngagementRate p).sends = p.sends ∧
    (recalcEngagementRate p).profile_views = p.profile_views ∧
    (recalcEngagementRate p).followers_gained = p.followers_gained ∧
    (recalcEngagementRate p).reposts = p.reposts := by
  unfold recalcEngagementRate
  split_ifs <;> simp

theorem statusTransition_fields (p : Post) :
    (statusTransition p).id = p.id ∧
    (statusTransition p).post_date = p.post_date ∧
    (statusTransition p).title = p.title ∧
    (statusTransition p).impressions = p.impressions ∧
    (statusTransition p).members_reached = p.members_reached ∧
    (statusTransition p).reactions = p.reactions ∧
    (statusTransition p).comments = p.comments ∧
    (statusTransition p).shares = p.shares ∧
    (statusTransition p).clicks = p.clicks ∧
    (statusTransition p).linkedin_post_id = p.linkedin_post_id ∧
    (statusTransition p).post_url = p.post_url ∧
    (statusTransition p).post_hour = p.post_hour ∧
    (statusTransition p).saves = p.saves ∧
    (statusTransition p).sends = p.sends ∧
    (statusTransition p).profile_views = p.profile_views ∧
    (statusTransition p).followers_gained = p.followers_gained ∧
    (statusTransition p).reposts = p.reposts := by
  unfold statusTransition
  split_ifs <;> simp

theorem applyAggUpdate_fields (p : Post) (r : PostRecord) :
    (applyAggUpdate p r).id = p.id ∧
    (applyAggUpdate p r).post_date = p.post_date ∧
    (applyAggUpdate p r).title = p.title ∧
    (applyAggUpdate p r).impressions = max p.impressions r.impressions ∧
    (applyAggUpdate p r).members_reached = max p.members_reached r.members_reached ∧
    (applyAggUpdate p r).reactions = max p.reactions r.reactions ∧
    (applyAggUpdate p r).comments = max p.comments r.comments ∧
    (applyAggUpdate p r).shares = max p.shares r.shares ∧
    (applyAggUpdate p r).clicks = max p.clicks r.clicks := by
  obtain ⟨s1, s2, s3, s4, s5, s6, s7, s8, s9, _⟩ :=
    statusTransition_fields (recalcEngagementRate (aggMergeFields p r))
  obtain ⟨r1, r2, r3, r4, r5, r6, r7, r8, r9, _⟩ :=
    recalcEngagementRate_fields (aggMergeFields p r)
  unfold applyAggUpdate
  refine ⟨?_, ?_, ?_, ?_, ?_, ?_, ?_, ?_, ?_⟩ <;>
    first
    | (rw [s1, r1]; rfl) | (rw [s2, r2]; rfl) | (rw [s3, r3]; rfl)
    | (rw [s4, r4]; rfl) | (rw [s5, r5]; rfl) | (rw [s6, r6]; rfl)
    | (rw [s7, r7]; rfl) | (rw [s8, r8]; rfl) | (rw [s9, r9]; rfl)

/-- C1 (amended): on the aggregate path every matched post's six cumulative
counters are set to max(existing, incoming) — so across any sequence of
aggregate-format upserts every stored post's counters are non-decreasing
(and its id stable); this monotonicity does not extend to the per-post
path, which overwrites counters unconditionally (see the counterexample). -/
theorem C1_aggregate_counters_monotone :
    (∀ (posts : List Post) (nextId : Nat) (r : PostRecord) (i : Nat) (p : Post),
      posts[i]? = some p →
      ∃ p', (upsertPost posts nextId r).1[i]? = some p' ∧ p.id = p'.id ∧
        p.impressions ≤ p'.impressions ∧ p.members_reached ≤ p'.members_reached ∧
        p.reactions ≤ p'.reactions ∧ p.comments ≤ p'.comments ∧
        p.shares ≤ p'.shares ∧ p.clicks ≤ p'.clicks ∧
        (p' = p ∨
          (p'.impressions = max p.impressions r.impressions ∧
           p'.members_reached = max p.members_reached r.members_reached ∧
           p'.reactions = max p.reactions r.reactions ∧
           p'.comments = max p.comments r.comments ∧
           p'.shares = max p.shares r.shares ∧
           p'.clicks = max p.clicks r.clicks))) ∧
    (∀ (rs : List PostRecord) (posts : List Post) (nextId : Nat) (i : Nat) (p : Post),
      posts[i]? = some p →
      ∃ p', ((rs.foldl (fun acc r => upsertPost acc.1 acc.2 r) (posts, nextId)).1)[i]?
          = some p' ∧ p.id = p'.id ∧
        p.impressions ≤ p'.impressions ∧ p.members_reached ≤ p'.members_reached ∧
        p.reactions ≤ p'.reactions ∧ p.comments ≤ p'.comments ∧
        p.shares ≤ p'.shares ∧ p.clicks ≤ p'.clicks) := by
  have step : ∀ (posts : List Post) (nextId : Nat) (r : PostRecord) (i : Nat) (p : Post),
      posts[i]? = some p →
      ∃ p', (upsertPost posts nextId r).1[i]? = some p' ∧ p.id = p'.id ∧
        p.impressions ≤ p'.impressions ∧ p.members_reached ≤ p'.members_reached ∧
        p.reactions ≤ p'.reactions ∧ p.comments ≤ p'.comments ∧
        p.shares ≤ p'.shares ∧ p.clicks ≤ p'.clicks ∧
        (p' = p ∨
          (p'.impressions = max p.impressions r.impressions ∧
           p'.members_reached = max p.members_reached r.members_reached ∧
           p'.reactions = max p.reactions r.reactions ∧
           p'.comments = max p.comments r.comments ∧
           p'.shares = max p.shares r.shares ∧
           p'.clicks = max p.clicks r.clicks)) := by
    intro posts nextId r i p h
    unfold upsertPost
    cases hsel : upsertSelect posts r with
    | none =>
      refine ⟨p, ?_, rfl, le_refl _, le_refl _, le_refl _, le_refl _, le_refl _,
        le_refl _, Or.inl rfl⟩
      have hi : i < posts.length := by
        rcases List.getElem?_eq_some.mp h with ⟨hlt, _⟩
        exact hlt
      show (posts ++ [mkNewPost nextId r])[i]? = some p
      rw [List.getElem?_append, if_pos hi]
      exact h
    | some q =>
      rcases updateFirst_get? q (fun x => applyAggUpdate x r) posts i p h with h1 | h1
      · exact ⟨p, h1, rfl, le_refl _, le_refl _, le_refl _, le_refl _, le_refl _,
          le_refl _, Or.inl rfl⟩
      · obtain ⟨hid, _, _, hi1, hi2, hi3, hi4, hi5, hi6⟩ := applyAggUpdate_fields p r
        refine ⟨applyAggUpdate p r, h1, hid.symm, ?_, ?_, ?_, ?_, ?_, ?_,
          Or.inr ⟨hi1, hi2, hi3, hi4, hi5, hi6⟩⟩
        · rw [hi1]; exact le_max_left _ _
        · rw [hi2]; exact le_max_left _ _
        · rw [hi3]; exact le_max_left _ _
        · rw [hi4]; exact le_max_left _ _
        · rw [hi5]; exact le_max_left _ _
        · rw [hi6]; exact le_max_left _ _
  refine ⟨step, ?_⟩
  intro rs
  induction rs with
  | nil =>
    intro posts nextId i p h
    exact ⟨p, h, rfl, le_refl _, le_refl _, le_refl _, le_refl _, le_refl _, le_refl _⟩
  | cons r rs ih =>
    intro posts nextId i p h
    rw [List.foldl_cons]
    obtain ⟨p1, hp1, hid1, ha1, hb1, hc1, hd1, he1, hf1, _⟩ :=
      step posts nextId r i p h
    obtain ⟨p2, hp2, hid2, ha2, hb2, hc2, hd2, he2, hf2⟩ :=
      ih (upsertPost posts nextId r).1 (upsertPost posts nextId r).2 i p1 hp1
    exact ⟨p2, hp2, hid1.trans hid2, ha1.trans ha2, hb1.trans hb2, hc1.trans hc2,
      hd1.trans hd2, he1.trans he2, hf1.trans hf2⟩

/-- Post stored by an earlier aggregate import, holding 3200 impressions. -/
def pC1 : Post :=
  { id := 1, linkedin_post_id := some "111", post_url := none, title := none,
    post_date := ⟨2025, 11, 1⟩, post_type := none, impressions := 3200,
    members_reached := 0, reactions := 180, comments := 0, shares := 0,
    clicks := 0, engagement_rate := 0, post_hour := none, content := none,
    status := none, saves := 0, sends := 0, profile_views := 0,
    followers_gained := 0, reposts := 0 }

/-- Database for the C1 counterexample: one post, created by an earlier
aggregate import, holding 3200 impressions. -/
def dbC1 : Db := { posts := [pC1], nextPostId := 2 }

/-- Per-post workbook for the C1 counterexample: same post date, a
share-subtype URN, and a lower impression count (100 < 3200). -/
def wbC1 : Workbook :=
  [("PERFORMANCE",
    [[.text "Post URL", .text "https://www.linkedin.com/feed/update/urn:li:share:222"],
     [.text "Post Date", .text "Nov 01, 2025"],
     [.text "Impressions", .text "100"]]),
   ("TOP DEMOGRAPHICS",
    [[.text "Category", .text "Value", .text "Percentage"]])]

/-- C1 counterexample: a later import via the per-post export overwrites
the stored cumulative counters unconditionally — impressions regress from
3200 to 100 — so "each stored counter is set to max(existing, incoming)
... regardless of which export format supplied the later import" is false
of the code. -/
theorem C1_counterexample :
    ((ingestPerPostXlsx ⟨2025, 12, 1⟩ dbC1 wbC1).toOption.map
        (fun x => x.1.posts.map (fun p => p.impressions))) = some [100] ∧
    dbC1.posts.map (fun p => p.impressions) = [3200] ∧ ¬((3200 : ℤ) ≤ 100) := by
  decide

/-- Record for the C1 witness: an aggregate record with higher counters. -/
def rC1 : PostRecord :=
  { post_date := ⟨2025, 11, 1⟩, linkedin_post_id := some "111",
    impressions := 5000, reactions := 200 }

/-- C1 witness: the single-step clause applied at the concrete store of
`dbC1` and the record `rC1`. -/
theorem C1_counters_monotone_witness :
    ∃ p', (upsertPost dbC1.posts 2 rC1).1[0]? = some p' ∧
      (pC1).id = p'.id ∧
      (pC1).impressions ≤ p'.impressions ∧
      (pC1).members_reached ≤ p'.members_reached ∧
      (pC1).reactions ≤ p'.reactions ∧
      (pC1).comments ≤ p'.comments ∧
      (pC1).shares ≤ p'.shares ∧
      (pC1).clicks ≤ p'.clicks ∧
      (p' = pC1 ∨
        (p'.impressions = max (pC1).impressions rC1.impressions ∧
         p'.members_reached = max (pC1).members_reached rC1.members_reached ∧
         p'.reactions = max (pC1).reactions rC1.reactions ∧
         p'.comments = max (pC1).comments rC1.comments ∧
         p'.shares = max (pC1).shares rC1.shares ∧
         p'.clicks = max (pC1).clicks rC1.clicks)) :=
  C1_aggregate_counters_monotone.1 dbC1.posts 2 rC1 0 pC1 (by decide)

/-! ### Claim C2: cross-format identity bridging -/

theorem perPostApplyUpdate_fields (p : Post) (m : PerPostMetrics) (ph : Option ℤ)
    (u : String) :
    (perPostApplyUpdate p m ph u).id = p.id ∧
    (perPostApplyUpdate p m ph u).linkedin_post_id = p.linkedin_post_id ∧
    (perPostApplyUpdate p m ph u).post_date = p.post_date ∧
    (perPostApplyUpdate p m ph u).title = p.title ∧
    (perPostApplyUpdate p m ph u).impressions = m.impressions := by
  unfold perPostApplyUpdate statusTransition recalcEngagementRate
  cases ph <;> dsimp only <;> split_ifs <;> simp

/-- C2: a per-post import whose URN matches no stored external post id
falls back to the first stored post with the same post date, regardless of
title — so a post first created by the aggregate top-posts parser (activity
URN, no title) and later ingested per-post (share URN, same date) resolves
to the same stored row and no duplicate is created. -/
theorem C2_cross_format_bridging
    (today : PyDate) (db : Db) (wb : Workbook) (pws dws : List (List CellValue))
    (lid : String) (d : PyDate) (l1 l2 : List Post) (p : Post)
    (hp : wb.foldl (fun acc s =>
        if pyUpper (pyStrip s.1) == "PERFORMANCE" then some s.2 else acc) none
      = some pws)
    (hd : wb.foldl (fun acc s =>
        if pyUpper (pyStrip s.1) == "TOP DEMOGRAPHICS" then some s.2 else acc) none
      = some dws)
    (hlid : extractUrnFromUrl (dictGet (parsePerPostPerformance pws) "Post URL" "")
      = some lid)
    (hdate : (parsePostDateStr (dictGet (parsePerPostPerformance pws) "Post Date" "")).getD
        today = d)
    (hnoid : ∀ x ∈ db.posts, x.linkedin_post_id ≠ some lid)
    (hsplit : db.posts = l1 ++ p :: l2)
    (hfirst : ∀ x ∈ l1, x.post_date ≠ d)
    (hpd : p.post_date = d) :
    ∃ db' res, ingestPerPostXlsx today db wb = .ok (db', res) ∧
      res.post_id = p.id ∧
      db'.posts.length = db.posts.length ∧
      ∃ p', db'.posts = l1 ++ p' :: l2 ∧ p'.id = p.id ∧
        p'.linkedin_post_id = p.linkedin_post_id ∧ p'.post_date = p.post_date := by
  have hfind : db.posts.find? (fun x => x.linkedin_post_id == some lid) = none := by
    rw [List.find?_eq_none]
    intro x hx
    simp [hnoid x hx]
  have hpred : perPostMatchPred db.posts (some lid) d = fun x => x.post_date == d := by
    simp only [perPostMatchPred, hfind, Option.isSome_none, Bool.false_eq_true, if_false]
  have hupd : updateFirstAndGet (fun x : Post => x.post_date == d)
      (fun x => perPostApplyUpdate x
        { impressions := parseIntWithCommas (dictGet (parsePerPostPerformance pws) "Impressions" "0")
          members_reached := parseIntWithCommas (dictGet (parsePerPostPerformance pws) "Members reached" "0")
          reactions := parseIntWithCommas (dictGet (parsePerPostPerformance pws) "Reactions" "0")
          comments := parseIntWithCommas (dictGet (parsePerPostPerformance pws) "Comments" "0")
          reposts := parseIntWithCommas (dictGet (parsePerPostPerformance pws) "Reposts" "0")
          saves := parseIntWithCommas (dictGet (parsePerPostPerformance pws) "Saves" "0")
          sends := parseIntWithCommas (dictGet (parsePerPostPerformance pws) "Sends on LinkedIn" "0")
          profile_views := parseIntWithCommas (dictGet (parsePerPostPerformance pws) "Profile viewers from this post" "0")
          followers_gained := parseIntWithCommas (dictGet (parsePerPostPerformance pws) "Followers gained from this post" "0") }
        (parsePostHour (dictGet (parsePerPostPerformance pws) "Post Publish Time" ""))
        (dictGet (parsePerPostPerformance pws) "Post URL" "")) db.posts
      = (l1 ++ perPostApplyUpdate p
          { impressions := parseIntWithCommas (dictGet (parsePerPostPerformance pws) "Impressions" "0")
            members_reached := parseIntWithCommas (dictGet (parsePerPostPerformance pws) "Members reached" "0")
            reactions := parseIntWithCommas (dictGet (parsePerPostPerformance pws) "Reactions" "0")
            comments := parseIntWithCommas (dictGet (parsePerPostPerformance pws) "Comments" "0")
            reposts := parseIntWithCommas (dictGet (parsePerPostPerformance pws) "Reposts" "0")
            saves := parseIntWithCommas (dictGet (parsePerPostPerformance pws) "Saves" "0")
            sends := parseIntWithCommas (dictGet (parsePerPostPerformance pws) "Sends on LinkedIn" "0")
            profile_views := parseIntWithCommas (dictGet (parsePerPostPerformance pws) "Profile viewers from this post" "0")
            followers_gained := parseIntWithCommas (dictGet (parsePerPostPerformance pws) "Followers gained from this post" "0") }
          (parsePostHour (dictGet (parsePerPostPerformance pws) "Post Publish Time" ""))
          (dictGet (parsePerPostPerformance pws) "Post URL" "") :: l2,
         some (perPostApplyUpdate p
          { impressions := parseIntWithCommas (dictGet (parsePerPostPerformance pws) "Impressions" "0")
            members_reached := parseIntWithCommas (dictGet (parsePerPostPerformance pws) "Members reached" "0")
            reactions := parseIntWithCommas (dictGet (parsePerPostPerformance pws) "Reactions" "0")
            comments := parseIntWithCommas (dictGet (parsePerPostPerformance pws) "Comments" "0")
            reposts := parseIntWithCommas (dictGet (parsePerPostPerformance pws) "Reposts" "0")
            saves := parseIntWithCommas (dictGet (parsePerPostPerformance pws) "Saves" "0")
            sends := parseIntWithCommas (dictGet (parsePerPostPerformance pws) "Sends on LinkedIn" "0")
            profile_views := parseIntWithCommas (dictGet (parsePerPostPerformance pws) "Profile viewers from this post" "0")
            followers_gained := parseIntWithCommas (dictGet (parsePerPostPerformance pws) "Followers gained from this post" "0") }
          (parsePostHour (dictGet (parsePerPostPerformance pws) "Post Publish Time" ""))
          (dictGet (parsePerPostPerformance pws) "Post URL" ""))) := by
    rw [hsplit]
    exact updateFirstAndGet_first_match _ _ l1 p l2
      (fun x hx => by simp [hfirst x hx]) (by simp [hpd])
  simp only [ingestPerPostXlsx, hp, hd, hlid, hdate, hpred, hupd]
  refine ⟨_, _, rfl, ?_, ?_, ?_⟩
  · exact (perPostApplyUpdate_fields p _ _ _).1
  · simp [hsplit]
  · exact ⟨perPostApplyUpdate p _ _ _, rfl, (perPostApplyUpdate_fields p _ _ _).1,
      (perPostApplyUpdate_fields p _ _ _).2.1, (perPostApplyUpdate_fields p _ _ _).2.2.1⟩

/-- TOP POSTS grid whose single data row creates the post via the
aggregate parser (activity URN 111, no title). -/
def gridC2 : List (List CellValue) :=
  [[.text "Post URL"],
   [.text "https://www.linkedin.com/feed/update/urn:li:activity:111",
    .dateCell ⟨2025, 11, 1⟩, .num 180]]

/-- Database produced by loading the aggregate parse of `gridC2` into an
empty store. -/
def dbC2 : Db := (loadToDb {} { posts := parseTopPostsSheet gridC2 }).1

/-- The post the aggregate load creates from `gridC2`. -/
def pC2 : Post :=
  { id := 1, linkedin_post_id := some "111", post_url := none, title := none,
    post_date := ⟨2025, 11, 1⟩, post_type := none, impressions := 0,
    members_reached := 0, reactions := 180, comments := 0, shares := 0, clicks := 0,
    engagement_rate := 0, post_hour := none, content := none, status := none,
    saves := 0, sends := 0, profile_views := 0, followers_gained := 0, reposts := 0 }

/-- Per-post workbook for the same post: a share-subtype URN (222) that
matches no stored id, and the same calendar date. -/
def wbC2 : Workbook :=
  [("PERFORMANCE",
    [[.text "Post URL", .text "https://www.linkedin.com/feed/update/urn:li:share:222"],
     [.text "Post Date", .text "Nov 01, 2025"],
     [.text "Impressions", .text "3,500"]]),
   ("TOP DEMOGRAPHICS", [[.text "Category", .text "Value", .text "Percentage"]])]

/-- C2 witness: the bridging theorem applied to the concrete aggregate-
created store and the concrete per-post workbook. -/
theorem C2_cross_format_bridging_witness :
    dbC2.posts = [pC2] ∧
    ∃ db' res, ingestPerPostXlsx ⟨2025, 12, 1⟩ dbC2 wbC2 = .ok (db', res) ∧
      res.post_id = pC2.id ∧
      db'.posts.length = dbC2.posts.length ∧
      ∃ p', db'.posts = [] ++ p' :: [] ∧ p'.id = pC2.id ∧
        p'.linkedin_post_id = pC2.linkedin_post_id ∧ p'.post_date = pC2.post_date := by
  refine ⟨by decide, C2_cross_format_bridging ⟨2025, 12, 1⟩ dbC2 wbC2
    [[.text "Post URL", .text "https://www.linkedin.com/feed/update/urn:li:share:222"],
     [.text "Post Date", .text "Nov 01, 2025"],
     [.text "Impressions", .text "3,500"]]
    [[.text "Category", .text "Value", .text "Percentage"]]
    "222" ⟨2025, 11, 1⟩ [] [] pC2
    (by decide) (by decide) (by decide) (by decide) (by decide) (by decide)
    (by decide) (by decide)⟩

/-! ### Claim C4: file-level deduplication gate -/

theorem validateUpload_shape (f : UploadFile) :
    validateUpload f = none ∨ ∃ m, validateUpload f = some (.ingestError m) := by
  unfold validateUpload
  split_ifs
  · exact Or.inr ⟨_, rfl⟩
  · exact Or.inr ⟨_, rfl⟩
  · exact Or.inr ⟨_, rfl⟩
  · exact Or.inr ⟨_, rfl⟩
  · exact Or.inl rfl

theorem parseLinkedInExport_error_shape (today : PyDate)
    (decode : List Nat → Option Workbook) (f : UploadFile) (e : IngestErr) :
    (parseLinkedInExport today decode f).2 = .error e → ∃ m, e = .ingestError m := by
  intro he
  unfold parseLinkedInExport at he
  rcases validateUpload_shape f with hv | ⟨m, hv⟩
  · rw [hv] at he
    dsimp only at he
    by_cases hcsv : pyLower f.suffix = ".csv"
    · rw [if_pos hcsv] at he
      simp at he
    · rw [if_neg hcsv] at he
      cases hdec : decode f.bytes with
      | none =>
        rw [hdec] at he
        simp at he
        exact ⟨_, he.symm⟩
      | some wb =>
        rw [hdec] at he
        dsimp only at he
        by_cases hwb : wb = []
        · rw [if_pos hwb] at he
          simp at he
          exact ⟨_, he.symm⟩
        · rw [if_neg hwb] at he
          simp at he
  · rw [hv] at he
    simp at he
    exact ⟨m, he.symm⟩

theorem ingestAggregateTail_not_duplicate (today : PyDate)
    (decode : List Nat → Option Workbook) (db : Db) (f : UploadFile)
    (name fileHash : String) (pre : List Phase) (pf : String) (pd : PyDate) :
    (ingestAggregateTail today decode db f name fileHash pre).2.2 ≠
      .error (.duplicateFile pf pd) := by
  unfold ingestAggregateTail
  cases hpr : (parseLinkedInExport today decode f).2 with
  | error e =>
    obtain ⟨m, hm⟩ := parseLinkedInExport_error_shape today decode f e hpr
    subst hm
    simp [hpr]
  | ok parsed =>
    simp [hpr]

/-- C4: if the SHA-256 content hash of the submitted file equals the hash
of a recorded upload, ingestion stops right after hashing — no format
detection, no parsing, no validation, no state change — with a duplicate
error carrying the prior upload's filename and upload date, for any
submitted filename; and when no recorded upload carries that hash, the run
never produces a duplicate error (in particular for content differing in a
single byte, whose SHA-256 differs). -/
theorem C4_dedup_gate :
    (∀ (today : PyDate) (decode : List Nat → Option Workbook) (db : Db)
       (f : UploadFile) (name : String) (u : Upload),
      f.present = true →
      db.uploads.find? (fun v => v.file_hash == sha256Hex f.bytes) = some u →
      ingestFile today decode db f name =
        ([Phase.hashed], db, .error (.duplicateFile u.filename u.upload_date))) ∧
    (∀ (today : PyDate) (decode : List Nat → Option Workbook) (db : Db)
       (f : UploadFile) (name pf : String) (pd : PyDate),
      (∀ u ∈ db.uploads, u.file_hash ≠ sha256Hex f.bytes) →
      (ingestFile today decode db f name).2.2 ≠ .error (.duplicateFile pf pd)) := by
  constructor
  · intro today decode db f name u hpres hfind
    unfold ingestFile
    rw [hpres]
    simp only [Bool.not_true, Bool.false_eq_true, if_false, hfind]
  · intro today decode db f name pf pd hno
    have hfind : db.uploads.find? (fun v => v.file_hash == sha256Hex f.bytes) = none := by
      rw [List.find?_eq_none]
      intro u hu
      simp [hno u hu]
    unfold ingestFile
    split_ifs with hpres hsuf
    · simp
    · simp only [hfind]
      by_cases hpp : (match decode f.bytes with
          | some wb => detectXlsxFormat (List.map (fun x => x.1) wb)
          | none => "aggregate") = "per_post"
      · rw [if_pos hpp]
        cases hdec : decode f.bytes with
        | none => simp
        | some wb =>
          cases hing : ingestPerPostXlsx today db wb with
          | ok dbres => simp [hing]
          | error e => simp [hing]
      · rw [if_neg hpp]
        exact ingestAggregateTail_not_duplicate today decode db f name
          (sha256Hex f.bytes) [Phase.hashed, Phase.fmtDetected] pf pd
    · simp only [hfind]
      exact ingestAggregateTail_not_duplicate today decode db f name
        (sha256Hex f.bytes) [Phase.hashed] pf pd

/-- Upload recorded for the C4 witness (content hash of bytes [1,2,3]). -/
def uploadC4 : Upload :=
  { filename := "report-feb.xlsx", file_hash := sha256Hex [1, 2, 3],
    upload_date := ⟨2026, 2, 1⟩, records_imported := 5, status := "completed" }

/-- Database for the C4 witness. -/
def dbC4 : Db := { uploads := [uploadC4] }

/-- C4 witness: byte-identical content under a different filename is
rejected with the prior upload's filename and date, before any parsing;
content differing in one byte ([1,2,4] vs [1,2,3]) passes the gate. -/
theorem C4_dedup_gate_witness :
    ingestFile ⟨2026, 3, 1⟩ (fun _ => none) dbC4
        { bytes := [1, 2, 3], suffix := ".xlsx" } "renamed.xlsx" =
      ([Phase.hashed], dbC4, .error (.duplicateFile "report-feb.xlsx" ⟨2026, 2, 1⟩)) ∧
    (ingestFile ⟨2026, 3, 1⟩ (fun _ => none) dbC4
        { bytes := [1, 2, 4], suffix := ".xlsx" } "other.xlsx").2.2 ≠
      .error (.duplicateFile "report-feb.xlsx" ⟨2026, 2, 1⟩) := by
  constructor
  · exact C4_dedup_gate.1 ⟨2026, 3, 1⟩ (fun _ => none) dbC4
      { bytes := [1, 2, 3], suffix := ".xlsx" } "renamed.xlsx" uploadC4 rfl (by decide)
  · exact C4_dedup_gate.2 ⟨2026, 3, 1⟩ (fun _ => none) dbC4
      { bytes := [1, 2, 4], suffix := ".xlsx" } "other.xlsx" "report-feb.xlsx"
      ⟨2026, 2, 1⟩ (by decide)

/-! ### Claim C5: ordering of validation in the pipeline -/

instance {ε α : Type} [DecidableEq ε] [DecidableEq α] : DecidableEq (Except ε α) :=
  fun a b =>
    match a, b with
    | .error e1, .error e2 => decidable_of_iff (e1 = e2) (by simp)
    | .error _, .ok _ => isFalse (fun h => by cases h)
    | .ok _, .error _ => isFalse (fun h => by cases h)
    | .ok a1, .ok a2 => decidable_of_iff (a1 = a2) (by simp)

/-- Database for the C5 counterexample: a prior upload whose hash is the
SHA-256 of empty content. -/
def dbC5 : Db :=
  { uploads := [{ filename := "prior.xlsx", file_hash := sha256Hex [],
                  upload_date := ⟨2026, 1, 15⟩, records_imported := 3,
                  status := "completed" }] }

/-- C5 counterexample: a zero-byte upload — which validation rejects as
empty — is hashed and duplicate-checked first: with a matching prior hash
the run ends in the duplicate error after the hashing phase alone, and
validation never runs, contradicting "validation is performed as the first
step of the import, before hashing and duplicate-check". -/
theorem C5_counterexample :
    validateUpload { present := true, bytes := [], suffix := ".xlsx" } =
      some (.ingestError "Uploaded file is empty.") ∧
    ingestFile ⟨2026, 2, 1⟩ (fun _ => none) dbC5
        { present := true, bytes := [], suffix := ".xlsx" } "empty.xlsx" =
      ([Phase.hashed], dbC5, .error (.duplicateFile "prior.xlsx" ⟨2026, 1, 15⟩)) := by
  decide

theorem parseLinkedInExport_trace (today : PyDate)
    (decode : List Nat → Option Workbook) (f : UploadFile) :
    (parseLinkedInExport today decode f).1 = [Phase.validated] ∨
    (parseLinkedInExport today decode f).1 = [Phase.validated, Phase.parsedSheets] := by
  unfold parseLinkedInExport
  rcases validateUpload_shape f with hv | ⟨m, hv⟩
  · rw [hv]
    dsimp only
    by_cases hcsv : pyLower f.suffix = ".csv"
    · rw [if_pos hcsv]
      left
      rfl
    · rw [if_neg hcsv]
      cases hdec : decode f.bytes with
      | none => left; rfl
      | some wb =>
        dsimp only
        by_cases hwb : wb = []
        · rw [if_pos hwb]
          left
          rfl
        · rw [if_neg hwb]
          right
          rfl
  · rw [hv]
    left
    rfl

theorem ingestAggregateTail_trace (today : PyDate)
    (decode : List Nat → Option Workbook) (db : Db) (f : UploadFile)
    (name fileHash : String) (pre : List Phase) :
    (ingestAggregateTail today decode db f name fileHash pre).1 =
      pre ++ (parseLinkedInExport today decode f).1 ∨
    (ingestAggregateTail today decode db f name fileHash pre).1 =
      pre ++ (parseLinkedInExport today decode f).1 ++ [Phase.persisted] := by
  unfold ingestAggregateTail
  cases hpr : (parseLinkedInExport today decode f).2 with
  | error e => left; simp [hpr]
  | ok parsed => right; simp [hpr]

/-- C5 (amended): inside the aggregate parsing routine, validation is the
first step and a validation failure aborts before any sheet parsing; but
`ingest_file` itself begins with hashing — the run's first phase is hashing
whenever the file can be opened — and the per-post pipeline performs no
upload validation at all. -/
theorem C5_pipeline_ordering :
    (∀ (today : PyDate) (decode : List Nat → Option Workbook) (f : UploadFile)
       (e : IngestErr), validateUpload f = some e →
      parseLinkedInExport today decode f = ([Phase.validated], .error e)) ∧
    (∀ (today : PyDate) (decode : List Nat → Option Workbook) (f : UploadFile),
      (parseLinkedInExport today decode f).1.head? = some Phase.validated) ∧
    (∀ (today : PyDate) (decode : List Nat → Option Workbook) (db : Db)
       (f : UploadFile) (name : String),
      (ingestFile today decode db f name).1 = [] ∨
      (ingestFile today decode db f name).1.head? = some Phase.hashed) ∧
    (∀ (today : PyDate) (decode : List Nat → Option Workbook) (db : Db)
       (f : UploadFile) (name : String),
      Phase.parsedPerPost ∈ (ingestFile today decode db f name).1 →
      Phase.validated ∉ (ingestFile today decode db f name).1) := by
  refine ⟨?_, ?_, ?_, ?_⟩
  · intro today decode f e h
    simp [parseLinkedInExport, h]
  · intro today decode f
    rcases parseLinkedInExport_trace today decode f with h | h <;> rw [h] <;> rfl
  · intro today decode db f name
    unfold ingestFile
    by_cases hpres : (!f.present) = true
    · rw [if_pos hpres]
      left
      rfl
    · rw [if_neg hpres]
      dsimp only
      cases hfind : db.uploads.find? (fun u => u.file_hash == sha256Hex f.bytes) with
      | some u => right; rfl
      | none =>
        split_ifs with hsuf hpp
        · right
          cases hdec : decode f.bytes with
          | none => rfl
          | some wb =>
            cases hing : ingestPerPostXlsx today db wb with
            | ok dbres => simp [hing]
            | error e => simp [hing]
        · rcases ingestAggregateTail_trace today decode db f name (sha256Hex f.bytes)
              [Phase.hashed, Phase.fmtDetected] with h | h <;>
            (right; rw [h]; rfl)
        · rcases ingestAggregateTail_trace today decode db f name (sha256Hex f.bytes)
              [Phase.hashed] with h | h <;>
            (right; rw [h]; rfl)
  · intro today decode db f name
    unfold ingestFile
    by_cases hpres : (!f.present) = true
    · rw [if_pos hpres]
      intro hmem
      simp at hmem
    · rw [if_neg hpres]
      dsimp only
      cases hfind : db.uploads.find? (fun u => u.file_hash == sha256Hex f.bytes) with
      | some u =>
        intro hmem
        simp at hmem
      | none =>
        split_ifs with hsuf hpp
        · cases hdec : decode f.bytes with
          | none =>
            intro hmem
            simp at hmem
          | some wb =>
            cases hing : ingestPerPostXlsx today db wb with
            | ok dbres =>
              intro hmem
              simp [hing]
            | error e =>
              intro hmem
              simp [hing] at hmem
        · rcases ingestAggregateTail_trace today decode db f name (sha256Hex f.bytes)
              [Phase.hashed, Phase.fmtDetected] with h | h <;>
            rcases parseLinkedInExport_trace today decode f with h2 | h2 <;>
            (rw [h, h2]; decide)
        · rcases ingestAggregateTail_trace today decode db f name (sha256Hex f.bytes)
              [Phase.hashed] with h | h <;>
            rcases parseLinkedInExport_trace today decode f with h2 | h2 <;>
            (rw [h, h2]; decide)

/-- C5 witness: the first clause applied to a concrete invalid upload: a
file with a disallowed extension is rejected by the aggregate parse
routine at the validation phase, before any parsing. -/
theorem C5_pipeline_ordering_witness :
    parseLinkedInExport ⟨2026, 1, 1⟩ (fun _ => none)
        { present := true, bytes := [7], suffix := ".pdf" } =
      ([Phase.validated], .error (.ingestError "Unsupported file type.")) :=
  C5_pipeline_ordering.1 ⟨2026, 1, 1⟩ (fun _ => none)
    { present := true, bytes := [7], suffix := ".pdf" } _ (by decide)

/-! ## C7: the top-posts dual-table merge -/

theorem topPosts_keys_append {recs : List TopPostEntry} {e : TopPostEntry}
    (hany : ¬ recs.any (fun r => r.linkedin_post_id == e.linkedin_post_id) = true)
    (h : (recs.map (fun r => r.linkedin_post_id)).Nodup) :
    ((recs ++ [e]).map (fun r => r.linkedin_post_id)).Nodup := by
  simp only [List.map_append, List.map_cons, List.map_nil]
  rw [(List.perm_append_singleton _ _).nodup_iff, List.nodup_cons]
  refine ⟨?_, h⟩
  intro hmem
  rcases List.mem_map.mp hmem with ⟨x, hx, hxa⟩
  exact hany (List.any_eq_true.mpr ⟨x, hx, by simp [hxa]⟩)

theorem topPostsUpdateLeft_nodup (recs : List TopPostEntry) (aid url : String)
    (d : PyDate) (eng : ℤ)
    (h : (recs.map (fun r => r.linkedin_post_id)).Nodup) :
    ((topPostsUpdateLeft recs aid url d eng).map
      (fun r => r.linkedin_post_id)).Nodup := by
  unfold topPostsUpdateLeft
  split_ifs with hany
  · rw [updateFirst_map_eq (fun r : TopPostEntry => r.linkedin_post_id == aid)
      (fun r : TopPostEntry => { r with engagements := eng })
      (fun r : TopPostEntry => r.linkedin_post_id) (fun x => rfl)]
    exact h
  · exact topPosts_keys_append hany h

theorem topPostsUpdateRight_nodup (recs : List TopPostEntry) (aid url : String)
    (d : PyDate) (imp : ℤ)
    (h : (recs.map (fun r => r.linkedin_post_id)).Nodup) :
    ((topPostsUpdateRight recs aid url d imp).map
      (fun r => r.linkedin_post_id)).Nodup := by
  unfold topPostsUpdateRight
  split_ifs with hany
  · rw [updateFirst_map_eq (fun r : TopPostEntry => r.linkedin_post_id == aid)
      (fun r : TopPostEntry => { r with impressions := imp })
      (fun r : TopPostEntry => r.linkedin_post_id) (fun x => rfl)]
    exact h
  · exact topPosts_keys_append hany h

theorem topPostsLeftScan_nodup (recs : List TopPostEntry) (row : List CellValue)
    (h : (recs.map (fun r => r.linkedin_post_id)).Nodup) :
    ((topPostsLeftScan recs row).map (fun r => r.linkedin_post_id)).Nodup := by
  simp only [topPostsLeftScan]
  split_ifs <;>
    first
      | exact h
      | (split <;>
          first
            | exact topPostsUpdateLeft_nodup _ _ _ _ _ h
            | exact h)

theorem topPostsRightScan_nodup (recs : List TopPostEntry) (row : List CellValue)
    (h : (recs.map (fun r => r.linkedin_post_id)).Nodup) :
    ((topPostsRightScan recs row).map (fun r => r.linkedin_post_id)).Nodup := by
  simp only [topPostsRightScan]
  split_ifs <;>
    first
      | exact h
      | (split <;>
          first
            | exact topPostsUpdateRight_nodup _ _ _ _ _ h
            | exact h)

theorem parseTopPostsRow_nodup (st : Bool × List TopPostEntry) (row : List CellValue)
    (h : (st.2.map (fun r => r.linkedin_post_id)).Nodup) :
    (((parseTopPostsRow st row).2).map (fun r => r.linkedin_post_id)).Nodup := by
  unfold parseTopPostsRow
  split_ifs with h1 h2
  · exact h
  · exact h
  · exact topPostsRightScan_nodup _ _ (topPostsLeftScan_nodup _ _ h)

theorem parseTopPosts_fold_nodup :
    ∀ (ws : List (List CellValue)) (st : Bool × List TopPostEntry),
      (st.2.map (fun r => r.linkedin_post_id)).Nodup →
      (((ws.foldl parseTopPostsRow st).2).map (fun r => r.linkedin_post_id)).Nodup := by
  intro ws
  induction ws with
  | nil => intro st h; exact h
  | cons row rows ih =>
    intro st h
    rw [List.foldl_cons]
    exact ih _ (parseTopPostsRow_nodup st row h)

/-- Concrete TOP POSTS worksheet for the C7 scenario: a header row, then a
data row carrying URN 111 on both the left side (engagements 180) and the
right side (impressions 3200), then a left-only row carrying URN 444. -/
def gridC7 : List (List CellValue) :=
  [[CellValue.text "Post URL"],
   [CellValue.text "https://www.linkedin.com/feed/update/urn:li:activity:111",
    CellValue.dateCell ⟨2025, 11, 1⟩, CellValue.num 180, CellValue.empty,
    CellValue.text "https://www.linkedin.com/feed/update/urn:li:activity:111",
    CellValue.dateCell ⟨2025, 11, 1⟩, CellValue.num 3200],
   [CellValue.text "https://www.linkedin.com/feed/update/urn:li:activity:444",
    CellValue.dateCell ⟨2025, 11, 2⟩, CellValue.num 50]]

/-- The merged record C7's concrete scenario must produce for URN 111. -/
def recC7a : PostRecord :=
  { post_date := ⟨2025, 11, 1⟩, title := none, linkedin_post_id := some "111",
    impressions := 3200, reactions := 180, comments := 0, shares := 0, clicks := 0,
    members_reached := 0, engagement_rate := 180 / 3200, post_type := none }

/-- The one-sided record C7's concrete scenario must produce for URN 444. -/
def recC7b : PostRecord :=
  { post_date := ⟨2025, 11, 2⟩, title := none, linkedin_post_id := some "444",
    impressions := 0, reactions := 50, comments := 0, shares := 0, clicks := 0,
    members_reached := 0, engagement_rate := 0, post_type := none }

/-- C7: the top-posts dual-table parser merges the left (engagement) and
right (impression) column groups by extracted activity id: (a) the output
never carries two records with the same external post id, so a post seen
on both sides yields a single merged record; (b) every output record's
engagement_rate equals engagements divided by impressions, and 0 when
impressions is 0; (c) concretely, a left row (URN 111, 2025-11-01,
engagements 180) merged with a right row (URN 111, impressions 3200),
plus a left-only row (URN 444, engagements 50), yields exactly the merged
record (impressions 3200, reactions 180) and the one-sided record with
impressions 0 and rate 0, the merged record's rate being
180 / 3200 = 0.05625. -/
theorem C7_top_posts_merge :
    (∀ ws : List (List CellValue),
      ((parseTopPostsSheet ws).map (fun r => r.linkedin_post_id)).Nodup) ∧
    (∀ (ws : List (List CellValue)) (r : PostRecord), r ∈ parseTopPostsSheet ws →
      (r.impressions = 0 → r.engagement_rate = 0) ∧
      (0 < r.impressions →
        r.engagement_rate = (r.reactions : ℚ) / (r.impressions : ℚ))) ∧
    (parseTopPostsSheet gridC7 = [recC7a, recC7b] ∧
      recC7a.engagement_rate = 0.05625) := by
  refine ⟨?_, ?_, by decide⟩
  · intro ws
    have hkeys := parseTopPosts_fold_nodup ws (false, []) (by simp)
    unfold parseTopPostsSheet
    rw [List.map_map]
    have hma := hkeys.map (Option.some_injective String)
    rw [List.map_map] at hma
    exact hma
  · intro ws r hr
    unfold parseTopPostsSheet at hr
    rcases List.mem_map.mp hr with ⟨e, he, rfl⟩
    refine ⟨?_, ?_⟩
    · intro h0
      have h0' : e.impressions = 0 := h0
      show (if 0 < e.impressions then (e.engagements : ℚ) / (e.impressions : ℚ) else 0) = 0
      rw [if_neg (by omega)]
    · intro hpos
      have hpos' : 0 < e.impressions := hpos
      show (if 0 < e.impressions then (e.engagements : ℚ) / (e.impressions : ℚ) else 0) =
        (e.engagements : ℚ) / (e.impressions : ℚ)
      rw [if_pos hpos']

/-- C7 witness: the engagement-rate clause applied at the merged record of
the concrete scenario, whose impressions 3200 are positive. -/
theorem C7_top_posts_witness :
    (0 : ℤ) < recC7a.impressions ∧
    ((recC7a.impressions = 0 → recC7a.engagement_rate = 0) ∧
     (0 < recC7a.impressions →
       recC7a.engagement_rate = (recC7a.reactions : ℚ) / (recC7a.impressions : ℚ))) :=
  ⟨by decide, C7_top_posts_merge.2.1 gridC7 recC7a (by decide)⟩
